import Mathlib

/-!
Shallow embedding of the FusionCAD_MCP repository (two Python sources:
`fusion_mcp_server/fusion_mcp_server.py`, the Fusion 360 add-in with the HTTP
listener and the main-thread command interpreter, and `mcp_bridge_server.py`,
the MCP bridge with the tool catalog and the wire-command encoder).

Modelling conventions:
* Wire commands are modelled at the whitespace-token level: a command string is
  a `List Tok`, where a token that is a numeric literal is `Tok.num q` (numbers
  as exact rationals `ℚ`; Python `float(...)` succeeds exactly on these) and
  any other token is `Tok.str s`.  Both sides of the protocol only ever look at
  the whitespace-split tokens (`command.split()` on the add-in side, an
  f-string joined with single spaces on the bridge side), so this is faithful
  for tokens that are nonempty and space-free; theorems about string-typed
  arguments carry a `wireSafe` hypothesis for exactly that reason.
* The Fusion host (the `adsk` API, outside this repository) is abstracted into
  a `Host` record holding what the handlers read: the active selection set, the
  named bodies of the root component, whether the Undo/Redo command definitions
  exist, and a single `apiFails` flag meaning "the fallible modelling-API calls
  of the handler body raise" (with `exc` the `traceback.format_exc()` text).
  UI reads (`activeSelections`, `bRepBodies`, `messageBox`, `writeText`) are
  modelled as total.
* A handler invocation is modelled by the list of its observable `Effect`s, in
  order: `write` is a `write_response` call (the mailbox write), `box` is a
  `_ui.messageBox`, `log` is a text-palette `writeText`, and `call` records
  which operation's handler function the dispatcher invoked.
* Numeric rendering inside human-readable messages uses `ratStr` (Lean's
  `toString` on `ℚ`) in place of Python float formatting; no claim depends on
  the digit-level rendering of a number inside a message.
-/

/-- A whitespace-delimited wire token: a numeric literal or any other string. -/
inductive Tok where
  | num (q : ℚ)
  | str (s : String)
deriving DecidableEq

/-- Rendering of a rational for message text (stand-in for Python float formatting). -/
def ratStr (q : ℚ) : String := toString q

/-- ASCII lowercase of one character (kernel-computable model of the ASCII
fragment of Python `str.lower()` that the command tokens use). -/
def lowerChar (c : Char) : Char :=
  if 65 ≤ c.toNat ∧ c.toNat ≤ 90 then Char.ofNat (c.toNat + 32) else c

/-- ASCII lowercase of a string (Python `s.lower()` on the ASCII tokens the
protocol compares). -/
def pyLower (s : String) : String := ⟨s.data.map lowerChar⟩

/-- ASCII uppercase of one character. -/
def upperChar (c : Char) : Char :=
  if 97 ≤ c.toNat ∧ c.toNat ≤ 122 then Char.ofNat (c.toNat - 32) else c

/-- ASCII uppercase of a string (Python `s.upper()`). -/
def pyUpper (s : String) : String := ⟨s.data.map upperChar⟩

/-- Whether a string contains a character. -/
def strContains (s : String) (c : Char) : Bool := s.data.contains c

/-- The text of a token as it appears on the wire. -/
def tokStr : Tok → String
  | Tok.num q => ratStr q
  | Tok.str s => s

/-- Python `float(token)`: succeeds exactly on numeric literals. -/
def tokFloat : Tok → Option ℚ
  | Tok.num q => some q
  | Tok.str _ => none

/-- The joined wire string (tokens separated by single spaces). -/
def wireStr (parts : List Tok) : String :=
  String.intercalate (" ") (parts.map tokStr)

/-- A token is safe for space-delimited framing: nonempty and without spaces. -/
def wireSafe (s : String) : Bool := s ≠ "" && !(strContains s (' '))

/-- An edge of a body in the host document (only circularity is observed). -/
structure FEdge where
  circular : Bool
deriving DecidableEq

/-- A named solid body of the root component, with its edges. -/
structure FBody where
  name : String
  edges : List FEdge
deriving DecidableEq

/-- An entry of `_ui.activeSelections`: a body, an edge, or something else. -/
inductive SelEntity where
  | body (name : String)
  | edge (circular : Bool)
  | other
deriving DecidableEq

/-- Whether a selected entity has `objectType == BRepBody`. -/
def isBody : SelEntity → Bool
  | SelEntity.body _ => true
  | _ => false

/-- Whether a selected entity has `objectType == BRepEdge`. -/
def isEdge : SelEntity → Bool
  | SelEntity.edge _ => true
  | _ => false

/-- The name of a selected body (only read after an `isBody` check succeeds). -/
def entName : SelEntity → String
  | SelEntity.body n => n
  | SelEntity.edge _ => ""
  | SelEntity.other => ""

/-- Abstraction of the Fusion host state a handler invocation observes.
`apiFails` means the fallible modelling-API calls in the handler's `try` body
raise (with traceback text `exc`); `defaultName` is the name Fusion itself
assigns to a newly created body when the handler does not rename it. -/
structure Host where
  selections : List SelEntity
  bodies : List FBody
  undoCmd : Bool
  redoCmd : Bool
  apiFails : Bool
  exc : String
  defaultName : String
deriving DecidableEq

/-- An observable step of a handler / interpreter invocation. -/
inductive Effect where
  | write (msg : String)
  | box (msg : String)
  | log (msg : String)
  | call (op : String)
deriving DecidableEq

/-- The `write_response` messages of an effect trace (the mailbox writes). -/
def writesOf (es : List Effect) : List String :=
  es.filterMap fun e =>
    match e with
    | Effect.write m => some m
    | _ => none

/-- The `messageBox` messages of an effect trace. -/
def boxesOf (es : List Effect) : List String :=
  es.filterMap fun e =>
    match e with
    | Effect.box m => some m
    | _ => none

/-- The operations whose handler function was invoked, in order. -/
def callsOf (es : List Effect) : List String :=
  es.filterMap fun e =>
    match e with
    | Effect.call op => some op
    | _ => none

/-- Source `get_construction_plane`: picks the construction plane by the
(lowercased) plane token, defaulting to XY (an empty or unrecognised token also
yields XY, matching the Python truthiness-guarded conditions). -/
def get_construction_plane (plane_str : String) : String :=
  if plane_str ≠ "" ∧ pyLower plane_str = "yz" then "yZConstructionPlane"
  else if plane_str ≠ "" ∧ pyLower plane_str = "xz" then "xZConstructionPlane"
  else "xYConstructionPlane"

/-- Handler `create_cube`: the `try` body either raises somewhere in the
sketch/extrude API work (`apiFails`, caught by the bare `except`, which writes
the FAILED response) or completes and writes the SUCCESS response; the created
body keeps Fusion's default name unless `body_name` was given. -/
def create_cube (size : ℚ) (body_name : Option String) (plane_str : String)
    (cx cy cz : ℚ) (h : Host) : List Effect :=
  if h.apiFails then
    [Effect.write ("FAILED: create_cube - " ++ h.exc),
     Effect.box ("Failed to create cube:\n" ++ h.exc)]
  else
    let nm := body_name.getD h.defaultName
    let msg := "SUCCESS: Cube \x27" ++ nm ++ "\x27 of size " ++ ratStr (size * 10)
      ++ "mm created!"
    [Effect.write msg, Effect.box msg]

/-- Handler `create_cylinder`. -/
def create_cylinder (radius height : ℚ) (body_name : Option String)
    (plane_str : String) (cx cy cz : ℚ) (h : Host) : List Effect :=
  if h.apiFails then
    [Effect.write ("FAILED: create_cylinder - " ++ h.exc),
     Effect.box ("Failed to create cylinder:\n" ++ h.exc)]
  else
    let nm := body_name.getD h.defaultName
    let msg := "SUCCESS: Cylinder \x27" ++ nm ++ "\x27 (radius:" ++ ratStr (radius * 10)
      ++ "mm, height:" ++ ratStr (height * 10) ++ "mm) created!"
    [Effect.write msg, Effect.box msg]

/-- Handler `create_box`. -/
def create_box (width depth height : ℚ) (body_name : Option String)
    (plane_str : String) (cx cy cz : ℚ) (h : Host) : List Effect :=
  if h.apiFails then
    [Effect.write ("FAILED: create_box - " ++ h.exc),
     Effect.box ("Failed to create box:\n" ++ h.exc)]
  else
    let nm := body_name.getD h.defaultName
    let msg := "SUCCESS: Box \x27" ++ nm ++ "\x27 (W:" ++ ratStr (width * 10)
      ++ ", D:" ++ ratStr (depth * 10) ++ ", H:" ++ ratStr (height * 10)
      ++ "mm) created!"
    [Effect.write msg, Effect.box msg]

/-- Handler `create_sphere`. -/
def create_sphere (radius : ℚ) (body_name : Option String) (plane_str : String)
    (cx cy cz : ℚ) (h : Host) : List Effect :=
  if h.apiFails then
    [Effect.write ("FAILED: create_sphere - " ++ h.exc),
     Effect.box ("Failed to create sphere:\n" ++ h.exc)]
  else
    let nm := body_name.getD h.defaultName
    let msg := "SUCCESS: Sphere \x27" ++ nm ++ "\x27 (radius:" ++ ratStr (radius * 10)
      ++ "mm) created!"
    [Effect.write msg, Effect.box msg]

/-- Handler `create_cone`. -/
def create_cone (radius height : ℚ) (body_name : Option String)
    (plane_str : String) (cx cy cz : ℚ) (h : Host) : List Effect :=
  if h.apiFails then
    [Effect.write ("FAILED: create_cone - " ++ h.exc),
     Effect.box ("Failed to create cone:\n" ++ h.exc)]
  else
    let nm := body_name.getD h.defaultName
    let msg := "SUCCESS: Cone \x27" ++ nm ++ "\x27 (radius:" ++ ratStr (radius * 10)
      ++ "mm, height:" ++ ratStr (height * 10) ++ "mm) created!"
    [Effect.write msg, Effect.box msg]

/-- Handler `create_sq_pyramid`. -/
def create_sq_pyramid (side_length height : ℚ) (body_name : Option String)
    (plane_str : String) (cx cy cz : ℚ) (h : Host) : List Effect :=
  if h.apiFails then
    [Effect.write ("FAILED: create_sq_pyramid - " ++ h.exc),
     Effect.box ("Failed to create square pyramid:\n" ++ h.exc)]
  else
    let nm := body_name.getD h.defaultName
    let msg := "SUCCESS: Square Pyramid \x27" ++ nm ++ "\x27 (base:"
      ++ ratStr (side_length * 10) ++ "mm, height:" ++ ratStr (height * 10)
      ++ "mm) created!"
    [Effect.write msg, Effect.box msg]

/-- Handler `create_tri_pyramid`. -/
def create_tri_pyramid (side_length height : ℚ) (body_name : Option String)
    (plane_str : String) (cx cy cz : ℚ) (h : Host) : List Effect :=
  if h.apiFails then
    [Effect.write ("FAILED: create_tri_pyramid - " ++ h.exc),
     Effect.box ("Failed to create triangular pyramid:\n" ++ h.exc)]
  else
    let nm := body_name.getD h.defaultName
    let msg := "SUCCESS: Triangular Pyramid \x27" ++ nm ++ "\x27 (base side:"
      ++ ratStr (side_length * 10) ++ "mm, height:" ++ ratStr (height * 10)
      ++ "mm) created!"
    [Effect.write msg, Effect.box msg]

/-- Handler `add_fillet_to_selection`: two precondition checks return early
with only a message box (no response write); otherwise the fillet API work
either raises or the SUCCESS response is written. -/
def add_fillet_to_selection (radius : ℚ) (h : Host) : List Effect :=
  if h.selections.length = 0 then
    [Effect.box ("フィレットを適用するエッジが選択されていません。")]
  else
    let edges_to_fillet := h.selections.filter isEdge
    if edges_to_fillet.length = 0 then
      [Effect.box ("選択されたオブジェクトにエッジが見つかりませんでした。")]
    else if h.apiFails then
      [Effect.write ("FAILED: add_fillet - " ++ h.exc),
       Effect.box ("フィレットの適用に失敗しました:\n" ++ h.exc)]
    else
      let msg := "SUCCESS: 選択した " ++ toString edges_to_fillet.length
        ++ " 本のエッジに R" ++ ratStr (radius * 10) ++ " のフィレットを適用しました。"
      [Effect.write msg, Effect.box msg]

/-- Handler `select_edges_of_body`: body-not-found returns early with only a
message box; both the some-edges and the no-matching-edges outcomes write a
response (SUCCESS resp. WARNING). -/
def select_edges_of_body (body_name edge_type : String) (h : Host) : List Effect :=
  match h.bodies.find? (fun b => b.name == body_name) with
  | none => [Effect.box ("名前が \x27" ++ body_name ++ "\x27 のボディが見つかりませんでした。")]
  | some target_body =>
    if h.apiFails then
      [Effect.write ("FAILED: select_edges - " ++ h.exc),
       Effect.box ("エッジの選択に失敗しました:\n" ++ h.exc)]
    else
      let selected := target_body.edges.filter fun e =>
        edge_type == "all" || (edge_type == "circular" && e.circular)
      if selected.length > 0 then
        let msg := "SUCCESS: ボディ \x27" ++ body_name ++ "\x27 の " ++ edge_type
          ++ " エッジを " ++ toString selected.length ++ " 本選択しました。"
        [Effect.write msg, Effect.box msg]
      else
        let msg := "WARNING: ボディ \x27" ++ body_name ++ "\x27 に \x27" ++ edge_type
          ++ "\x27 の条件に合うエッジが見つかりませんでした。"
        [Effect.write msg, Effect.box msg]

/-- The valid boolean-combine operation names. -/
def combineOps : List String := ["join", "cut", "intersect"]

/-- Handler `perform_combine_on_selection`: the selection-count check, the
both-are-bodies check and the operation-name check all return early with only
a message box; `apiFails` abstracts the fallible combine-feature API calls of
the `try` body (in the source the earliest of those calls precedes the
operation-name check, so a raising API is reported before an invalid name). -/
def perform_combine_on_selection (operation : String) (h : Host) : List Effect :=
  if h.selections.length ≠ 2 then
    [Effect.box ("操作を実行するには、ボディを2つだけ選択してください。\n（ターゲットを1つ目、ツールを2つ目に選択）")]
  else
    let body1 := h.selections.getD 0 SelEntity.other
    let body2 := h.selections.getD 1 SelEntity.other
    if !(isBody body1 && isBody body2) then
      [Effect.box ("選択されたものがボディではありません。2つのボディを選択してください。")]
    else if h.apiFails then
      [Effect.write ("FAILED: combine_selection - " ++ h.exc),
       Effect.box ("結合/切り取り操作に失敗しました:\n" ++ h.exc)]
    else
      let op_str := pyLower operation
      if op_str ∉ combineOps then
        [Effect.box ("無効な操作です: \x27" ++ operation
          ++ "\x27。\x27join\x27, \x27cut\x27, \x27intersect\x27のいずれかを指定してください。")]
      else
        let msg := "SUCCESS: \x27" ++ entName body1 ++ "\x27 と \x27" ++ entName body2
          ++ "\x27 の " ++ op_str ++ " 操作が完了しました。"
        [Effect.write msg, Effect.box msg]

/-- Handler `select_two_bodies_by_name`: the source loop assigns `body2` only
in the `elif` branch, so a body whose name equals `body_name1` can never serve
as `body2`; either not-found case returns early with only a message box. -/
def select_two_bodies_by_name (body_name1 body_name2 : String) (h : Host) :
    List Effect :=
  let body1 := h.bodies.find? (fun b => b.name == body_name1)
  let body2 := h.bodies.find? (fun b => b.name != body_name1 && b.name == body_name2)
  match body1 with
  | none => [Effect.box ("ボディ \x27" ++ body_name1 ++ "\x27 が見つかりませんでした。")]
  | some _ =>
    match body2 with
    | none => [Effect.box ("ボディ \x27" ++ body_name2 ++ "\x27 が見つかりませんでした。")]
    | some _ =>
      if h.apiFails then
        [Effect.write ("FAILED: select_bodies - " ++ h.exc),
         Effect.box ("ボディの選択に失敗しました:\n" ++ h.exc)]
      else
        let msg := "SUCCESS: ボディ \x27" ++ body_name1 ++ "\x27 と \x27" ++ body_name2
          ++ "\x27 を選択しました。"
        [Effect.write msg, Effect.box msg]

/-- Handler `perform_combine_by_name` (same `elif` name-matching as
`select_two_bodies_by_name`; the invalid-operation message prints the
lowercased name here, unlike `perform_combine_on_selection`). -/
def perform_combine_by_name (target_body_name tool_body_name operation : String)
    (h : Host) : List Effect :=
  let target := h.bodies.find? (fun b => b.name == target_body_name)
  let tool := h.bodies.find? (fun b => b.name != target_body_name && b.name == tool_body_name)
  match target with
  | none => [Effect.box ("ターゲットボディ \x27" ++ target_body_name ++ "\x27 が見つかりませんでした。")]
  | some _ =>
    match tool with
    | none => [Effect.box ("ツールボディ \x27" ++ tool_body_name ++ "\x27 が見つかりませんでした。")]
    | some _ =>
      if h.apiFails then
        [Effect.write ("FAILED: combine_by_name - " ++ h.exc),
         Effect.box ("結合/切り取り操作に失敗しました:\n" ++ h.exc)]
      else
        let op_str := pyLower operation
        if op_str ∉ combineOps then
          [Effect.box ("無効な操作です: \x27" ++ op_str
            ++ "\x27。\x27join\x27, \x27cut\x27, \x27intersect\x27のいずれかを指定してください。")]
        else
          let msg := "SUCCESS: \x27" ++ target_body_name ++ "\x27 をターゲットに \x27"
            ++ tool_body_name ++ "\x27 を使って " ++ op_str ++ " 操作が完了しました。"
          [Effect.write msg, Effect.box msg]

/-- Handler `move_selection`: empty selection and no-body-selected both return
early with only a message box. -/
def move_selection (x_dist y_dist z_dist : ℚ) (h : Host) : List Effect :=
  if h.selections.length = 0 then
    [Effect.box ("移動させるボディが選択されていません。")]
  else
    let bodies_to_move := h.selections.filter isBody
    if bodies_to_move.length = 0 then
      [Effect.box ("移動対象としてボディが選択されていません。")]
    else if h.apiFails then
      [Effect.write ("FAILED: move_selection - " ++ h.exc),
       Effect.box ("ボディの移動に失敗しました:\n" ++ h.exc)]
    else
      let msg := "SUCCESS: " ++ toString bodies_to_move.length ++ "個のボディを (X:"
        ++ ratStr (x_dist * 10) ++ ", Y:" ++ ratStr (y_dist * 10) ++ ", Z:"
        ++ ratStr (z_dist * 10) ++ ") mm 移動しました。"
      [Effect.write msg, Effect.box msg]

/-- Handler `select_one_body_by_name`: not-found returns early with only a
message box. -/
def select_one_body_by_name (body_name : String) (h : Host) : List Effect :=
  match h.bodies.find? (fun b => b.name == body_name) with
  | none => [Effect.box ("名前が \x27" ++ body_name ++ "\x27 のボディが見つかりませんでした。")]
  | some _ =>
    if h.apiFails then
      [Effect.write ("FAILED: select_body - " ++ h.exc),
       Effect.box ("ボディの選択に失敗しました:\n" ++ h.exc)]
    else
      let msg := "SUCCESS: ボディ \x27" ++ body_name ++ "\x27 を選択しました。"
      [Effect.write msg, Effect.box msg]

/-- Handler `perform_undo`: all three outcomes (success, raising `execute`,
missing command definition) write a response; the success path logs to the
text palette instead of a message box. -/
def perform_undo (h : Host) : List Effect :=
  if h.undoCmd then
    if h.apiFails then
      [Effect.write ("FAILED: undo - " ++ h.exc),
       Effect.box ("Undo operation failed:\n" ++ h.exc)]
    else
      [Effect.write ("SUCCESS: Undo command executed successfully."),
       Effect.log ("SUCCESS: Undo command executed successfully.")]
  else
    [Effect.write ("FAILED: Undo command definition not found."),
     Effect.box ("FAILED: Undo command definition not found.")]

/-- Handler `perform_redo` (mirror of `perform_undo`). -/
def perform_redo (h : Host) : List Effect :=
  if h.redoCmd then
    if h.apiFails then
      [Effect.write ("FAILED: redo - " ++ h.exc),
       Effect.box ("Redo operation failed:\n" ++ h.exc)]
    else
      [Effect.write ("SUCCESS: Redo command executed successfully."),
       Effect.log ("SUCCESS: Redo command executed successfully.")]
  else
    [Effect.write ("FAILED: Redo command definition not found."),
     Effect.box ("FAILED: Redo command definition not found.")]

/-- Handler `rotate_selection`: the selection-count, is-a-body and axis-name
checks all return early with only a message box; the source lowercases the
axis before validating and reporting it. -/
def rotate_selection (axis_str : String) (angle_degrees cx cy cz : ℚ)
    (h : Host) : List Effect :=
  if h.selections.length ≠ 1 then
    [Effect.box ("回転させるボディを1つだけ選択してください。")]
  else
    let target_body := h.selections.getD 0 SelEntity.other
    if !(isBody target_body) then
      [Effect.box ("選択されたものがボディではありません。")]
    else
      let axis := pyLower axis_str
      if axis ∉ ["x", "y", "z"] then
        [Effect.box ("無効な回転軸です: \x27" ++ axis
          ++ "\x27。\x27x\x27, \x27y\x27, \x27z\x27のいずれかを指定してください。")]
      else if h.apiFails then
        [Effect.write ("FAILED: rotate_selection - " ++ h.exc),
         Effect.box ("ボディの回転に失敗しました:\n" ++ h.exc)]
      else
        let msg := "SUCCESS: ボディ \x27" ++ entName target_body ++ "\x27 を "
          ++ pyUpper axis ++ "軸周りに " ++ ratStr angle_degrees ++ "度 回転させました。"
        [Effect.write msg, Effect.box msg]

/-- The name tokens treated as "no body name" by every legacy shape command. -/
def reservedNames : List String := ["xy", "yz", "xz", "none", "null"]

/-- Required positional float argument: `float(parts[i]) / 10.0` — missing
index (IndexError) or non-numeric token (ValueError) yields parse failure. -/
def reqFloatAt (parts : List Tok) (i : Nat) : Option ℚ :=
  ((parts[i]?).bind tokFloat).map fun q => q / 10

/-- Required positional float argument without the unit scale (only the
rotation angle): `float(parts[i])`. -/
def reqFloatRawAt (parts : List Tok) (i : Nat) : Option ℚ :=
  (parts[i]?).bind tokFloat

/-- Optional positional float argument:
`float(parts[i]) / 10.0 if len(parts) > i else 0` — absent defaults to 0, but
a present non-numeric token is still a ValueError. -/
def optFloatAt (parts : List Tok) (i : Nat) : Option ℚ :=
  match parts[i]? with
  | none => some 0
  | some t => (tokFloat t).map fun q => q / 10

/-- Required positional string argument: `parts[i]` (IndexError if missing). -/
def reqStrAt (parts : List Tok) (i : Nat) : Option String :=
  (parts[i]?).map tokStr

/-- Optional body-name argument:
`parts[i] if (len(parts) > i and parts[i].lower() not in reservedNames) else None`. -/
def bodyNameAt (parts : List Tok) (i : Nat) : Option String :=
  match parts[i]? with
  | none => none
  | some t => if pyLower (tokStr t) ∈ reservedNames then none else some (tokStr t)

/-- Optional plane argument: `parts[i] if len(parts) > i else "xy"`. -/
def planeStrAt (parts : List Tok) (i : Nat) : String :=
  match parts[i]? with
  | none => "xy"
  | some t => tokStr t

/-- Decoded arguments of a one-dimension shape command (cube, sphere). -/
structure Shape1Args where
  p1 : ℚ
  body_name : Option String
  plane_str : String
  cx : ℚ
  cy : ℚ
  cz : ℚ
deriving DecidableEq

/-- Decoded arguments of a two-dimension shape command
(cylinder, cone, square / triangular pyramid). -/
structure Shape2Args where
  p1 : ℚ
  p2 : ℚ
  body_name : Option String
  plane_str : String
  cx : ℚ
  cy : ℚ
  cz : ℚ
deriving DecidableEq

/-- Decoded arguments of a three-dimension shape command (box). -/
structure Shape3Args where
  p1 : ℚ
  p2 : ℚ
  p3 : ℚ
  body_name : Option String
  plane_str : String
  cx : ℚ
  cy : ℚ
  cz : ℚ
deriving DecidableEq

/-- Decoded arguments of `rotate_selection`: note the angle (position 2) is
passed through `float` WITHOUT the divide-by-10 unit scale, while the rotation
centre coordinates are scaled and all are required. -/
structure RotateArgs where
  axis : String
  angle : ℚ
  cx : ℚ
  cy : ℚ
  cz : ℚ
deriving DecidableEq

/-- Argument decode of the `create_cube` branch of
`CommandReceivedEventHandler.notify`. -/
def decode_create_cube (parts : List Tok) : Option Shape1Args := do
  let size ← reqFloatAt parts 1
  let cx ← optFloatAt parts 4
  let cy ← optFloatAt parts 5
  let cz ← optFloatAt parts 6
  pure ⟨size, bodyNameAt parts 2, planeStrAt parts 3, cx, cy, cz⟩

/-- Argument decode of the `create_cylinder` branch. -/
def decode_create_cylinder (parts : List Tok) : Option Shape2Args := do
  let radius ← reqFloatAt parts 1
  let height ← reqFloatAt parts 2
  let cx ← optFloatAt parts 5
  let cy ← optFloatAt parts 6
  let cz ← optFloatAt parts 7
  pure ⟨radius, height, bodyNameAt parts 3, planeStrAt parts 4, cx, cy, cz⟩

/-- Argument decode of the `create_box` branch. -/
def decode_create_box (parts : List Tok) : Option Shape3Args := do
  let width ← reqFloatAt parts 1
  let depth ← reqFloatAt parts 2
  let height ← reqFloatAt parts 3
  let cx ← optFloatAt parts 6
  let cy ← optFloatAt parts 7
  let cz ← optFloatAt parts 8
  pure ⟨width, depth, height, bodyNameAt parts 4, planeStrAt parts 5, cx, cy, cz⟩

/-- Argument decode of the `create_sphere` branch. -/
def decode_create_sphere (parts : List Tok) : Option Shape1Args := do
  let radius ← reqFloatAt parts 1
  let cx ← optFloatAt parts 4
  let cy ← optFloatAt parts 5
  let cz ← optFloatAt parts 6
  pure ⟨radius, bodyNameAt parts 2, planeStrAt parts 3, cx, cy, cz⟩

/-- Argument decode of the `create_cone` branch. -/
def decode_create_cone (parts : List Tok) : Option Shape2Args := do
  let radius ← reqFloatAt parts 1
  let height ← reqFloatAt parts 2
  let cx ← optFloatAt parts 5
  let cy ← optFloatAt parts 6
  let cz ← optFloatAt parts 7
  pure ⟨radius, height, bodyNameAt parts 3, planeStrAt parts 4, cx, cy, cz⟩

/-- Argument decode of the `create_sq_pyramid` branch. -/
def decode_create_sq_pyramid (parts : List Tok) : Option Shape2Args := do
  let side ← reqFloatAt parts 1
  let height ← reqFloatAt parts 2
  let cx ← optFloatAt parts 5
  let cy ← optFloatAt parts 6
  let cz ← optFloatAt parts 7
  pure ⟨side, height, bodyNameAt parts 3, planeStrAt parts 4, cx, cy, cz⟩

/-- Argument decode of the `create_tri_pyramid` branch. -/
def decode_create_tri_pyramid (parts : List Tok) : Option Shape2Args := do
  let side ← reqFloatAt parts 1
  let height ← reqFloatAt parts 2
  let cx ← optFloatAt parts 5
  let cy ← optFloatAt parts 6
  let cz ← optFloatAt parts 7
  pure ⟨side, height, bodyNameAt parts 3, planeStrAt parts 4, cx, cy, cz⟩

/-- Argument decode of the `add_fillet` branch. -/
def decode_add_fillet (parts : List Tok) : Option ℚ :=
  reqFloatAt parts 1

/-- Argument decode of the `select_edges` branch. -/
def decode_select_edges (parts : List Tok) : Option (String × String) := do
  let body_name ← reqStrAt parts 1
  let edge_type ← reqStrAt parts 2
  pure (body_name, edge_type)

/-- Argument decode of the `combine_selection` branch. -/
def decode_combine_selection (parts : List Tok) : Option String :=
  reqStrAt parts 1

/-- Argument decode of the `select_bodies` branch. -/
def decode_select_bodies (parts : List Tok) : Option (String × String) := do
  let body_name1 ← reqStrAt parts 1
  let body_name2 ← reqStrAt parts 2
  pure (body_name1, body_name2)

/-- Argument decode of the `combine_by_name` branch. -/
def decode_combine_by_name (parts : List Tok) : Option (String × String × String) := do
  let target ← reqStrAt parts 1
  let tool ← reqStrAt parts 2
  let operation ← reqStrAt parts 3
  pure (target, tool, operation)

/-- Argument decode of the `move_selection` branch (all three required, scaled). -/
def decode_move_selection (parts : List Tok) : Option (ℚ × ℚ × ℚ) := do
  let x ← reqFloatAt parts 1
  let y ← reqFloatAt parts 2
  let z ← reqFloatAt parts 3
  pure (x, y, z)

/-- Argument decode of the `select_body` branch. -/
def decode_select_body (parts : List Tok) : Option String :=
  reqStrAt parts 1

/-- Argument decode of the `rotate_selection` branch. -/
def decode_rotate_selection (parts : List Tok) : Option RotateArgs := do
  let axis ← reqStrAt parts 1
  let angle ← reqFloatRawAt parts 2
  let cx ← reqFloatAt parts 3
  let cy ← reqFloatAt parts 4
  let cz ← reqFloatAt parts 5
  pure ⟨axis, angle, cx, cy, cz⟩

/-- The `if/elif` dispatch chain of `CommandReceivedEventHandler.notify`, in
source order.  A parse failure (ValueError / IndexError) of a branch only shows
the branch's usage message box; an unmatched name only shows the
unknown-command box; neither path writes a response. -/
def dispatch (command_name : String) (parts : List Tok) (h : Host) : List Effect :=
  if command_name = "create_cube" then
    match decode_create_cube parts with
    | some a => Effect.call ("create_cube") ::
        create_cube a.p1 a.body_name a.plane_str a.cx a.cy a.cz h
    | none => [Effect.box ("Invalid format. Usage: create_cube <size> [name] [plane] [cx] [cy] [cz]")]
  else if command_name = "create_cylinder" then
    match decode_create_cylinder parts with
    | some a => Effect.call ("create_cylinder") ::
        create_cylinder a.p1 a.p2 a.body_name a.plane_str a.cx a.cy a.cz h
    | none => [Effect.box ("Invalid format. Usage: create_cylinder <radius> <height> [name] [plane] [cx] [cy] [cz]")]
  else if command_name = "create_box" then
    match decode_create_box parts with
    | some a => Effect.call ("create_box") ::
        create_box a.p1 a.p2 a.p3 a.body_name a.plane_str a.cx a.cy a.cz h
    | none => [Effect.box ("Invalid format. Usage: create_box <w> <d> <h> [name] [plane] [cx] [cy] [cz]")]
  else if command_name = "create_sphere" then
    match decode_create_sphere parts with
    | some a => Effect.call ("create_sphere") ::
        create_sphere a.p1 a.body_name a.plane_str a.cx a.cy a.cz h
    | none => [Effect.box ("Invalid format. Usage: create_sphere <radius> [name] [plane] [cx] [cy] [cz]")]
  else if command_name = "create_cone" then
    match decode_create_cone parts with
    | some a => Effect.call ("create_cone") ::
        create_cone a.p1 a.p2 a.body_name a.plane_str a.cx a.cy a.cz h
    | none => [Effect.box ("Invalid format. Usage: create_cone <radius> <height> [name] [plane] [cx] [cy] [cz]")]
  else if command_name = "create_sq_pyramid" then
    match decode_create_sq_pyramid parts with
    | some a => Effect.call ("create_sq_pyramid") ::
        create_sq_pyramid a.p1 a.p2 a.body_name a.plane_str a.cx a.cy a.cz h
    | none => [Effect.box ("Invalid format. Usage: create_sq_pyramid <side> <h> [name] [plane] [cx] [cy] [cz]")]
  else if command_name = "create_tri_pyramid" then
    match decode_create_tri_pyramid parts with
    | some a => Effect.call ("create_tri_pyramid") ::
        create_tri_pyramid a.p1 a.p2 a.body_name a.plane_str a.cx a.cy a.cz h
    | none => [Effect.box ("Invalid format. Usage: create_tri_pyramid <side> <h> [name] [plane] [cx] [cy] [cz]")]
  else if command_name = "add_fillet" then
    match decode_add_fillet parts with
    | some radius => Effect.call ("add_fillet") :: add_fillet_to_selection radius h
    | none => [Effect.box ("Invalid format. Expected: add_fillet <radius_mm>")]
  else if command_name = "select_edges" then
    match decode_select_edges parts with
    | some a => Effect.call ("select_edges") :: select_edges_of_body a.1 a.2 h
    | none => [Effect.box ("Invalid format. Expected: select_edges <body_name> <all|circular>")]
  else if command_name = "combine_selection" then
    match decode_combine_selection parts with
    | some operation => Effect.call ("combine_selection") ::
        perform_combine_on_selection operation h
    | none => [Effect.box ("Invalid format. Expected: combine_selection <join|cut|intersect>")]
  else if command_name = "select_bodies" then
    match decode_select_bodies parts with
    | some a => Effect.call ("select_bodies") :: select_two_bodies_by_name a.1 a.2 h
    | none => [Effect.box ("Invalid format. Expected: select_bodies <body_name1> <body_name2>")]
  else if command_name = "combine_by_name" then
    match decode_combine_by_name parts with
    | some a => Effect.call ("combine_by_name") ::
        perform_combine_by_name a.1 a.2.1 a.2.2 h
    | none => [Effect.box ("Invalid format. Expected: combine_by_name <target_body> <tool_body> <join|cut|intersect>")]
  else if command_name = "move_selection" then
    match decode_move_selection parts with
    | some a => Effect.call ("move_selection") :: move_selection a.1 a.2.1 a.2.2 h
    | none => [Effect.box ("Invalid format. Expected: move_selection <x_dist> <y_dist> <z_dist>")]
  else if command_name = "select_body" then
    match decode_select_body parts with
    | some body_name => Effect.call ("select_body") :: select_one_body_by_name body_name h
    | none => [Effect.box ("Invalid format. Expected: select_body <body_name>")]
  else if command_name = "undo" then
    Effect.call ("undo") :: perform_undo h
  else if command_name = "redo" then
    Effect.call ("redo") :: perform_redo h
  else if command_name = "rotate_selection" then
    match decode_rotate_selection parts with
    | some a => Effect.call ("rotate_selection") ::
        rotate_selection a.axis a.angle a.cx a.cy a.cz h
    | none => [Effect.box ("Invalid format. Expected: rotate_selection <axis> <angle> <cx> <cy> <cz>")]
  else
    [Effect.box ("Unknown command: \x27" ++ command_name ++ "\x27")]

/-- `CommandReceivedEventHandler.notify`: logs the raw command to the text
palette, splits it, and dispatches on the first token; an empty command makes
`parts[0]` raise IndexError, which the outer catch-all turns into a message box
(never a crash, never a response write). -/
def notify (parts : List Tok) (h : Host) : List Effect :=
  Effect.log ("Executing: " ++ wireStr parts) ::
    match parts with
    | [] => [Effect.box ("An unexpected error occurred in notify handler:\n" ++ h.exc)]
    | t :: _ => dispatch (tokStr t) parts h

/-- The operation names recognised by the interpreter's dispatch chain. -/
def knownOps : List String :=
  ["create_cube", "create_cylinder", "create_box", "create_sphere", "create_cone",
   "create_sq_pyramid", "create_tri_pyramid", "add_fillet", "select_edges",
   "combine_selection", "select_bodies", "combine_by_name", "move_selection",
   "select_body", "undo", "redo", "rotate_selection"]

/-- The single-slot response mailbox: `_last_response` plus the
`_response_ready` threading event. -/
structure Mailbox where
  last : Option String
  ready : Bool
deriving DecidableEq

/-- `write_response`: store the message and set the readiness event. -/
def write_response (m : Mailbox) (msg : String) : Mailbox :=
  { last := some msg, ready := true }

/-- The mailbox as `do_POST` resets it before firing the event
(`_last_response = None; _response_ready.clear()`). -/
def clearedMailbox : Mailbox := { last := none, ready := false }

/-- Run an effect trace against the mailbox: every `write_response` stores its
message and sets the flag; other effects leave the mailbox alone. -/
def applyEffects (m : Mailbox) (es : List Effect) : Mailbox :=
  es.foldl (fun acc e =>
    match e with
    | Effect.write s => write_response acc s
    | _ => acc) m

/-- The HTTP reply of the listener: a JSON body with HTTP code, status word and
message, or the body-less 404 for an unknown path. -/
inductive Reply where
  | json (http : Nat) (status : String) (message : Option String)
  | notFound
deriving DecidableEq

/-- The POST body: either a decoded `{"command": ...}` object or a payload on
which `json.loads` / decoding raises (with exception text). -/
inductive ReqBody where
  | ok (cmd : List Tok)
  | malformed (exc : String)
deriving DecidableEq

/-- Whether the fired command's mailbox writes land before the 30-second
`_response_ready.wait` expires (`before`), or only after the listener has
already given up (`after`, the lost-response condition). -/
inductive Sched where
  | before
  | after
deriving DecidableEq

/-- `FusionHTTPHandler.do_POST` for one request: on `/command` it decodes the
body, resets the mailbox, fires the custom event, and waits on the mailbox;
readiness in time yields `{"status": "success", "message": _last_response}`
(HTTP 200) whatever the message text says; expiry yields the synthesized
timeout reply (still HTTP 200) while the un-cancelled host-side execution later
writes into the abandoned slot; a decoding exception yields HTTP 500 with
status `error`; any other path yields 404.  Returns the reply and the mailbox
state after the request (including late writes). -/
def do_POST (path : String) (m : Mailbox) (body : ReqBody) (h : Host)
    (sched : Sched) : Reply × Mailbox :=
  if path = "/command" then
    match body with
    | ReqBody.malformed exc => (Reply.json 500 "error" (some exc), m)
    | ReqBody.ok cmd =>
      match sched with
      | Sched.before =>
        let mAfter := applyEffects clearedMailbox (notify cmd h)
        if mAfter.ready then
          (Reply.json 200 "success" mAfter.last, mAfter)
        else
          (Reply.json 200 "timeout" (some ("Command execution timeout")), mAfter)
      | Sched.after =>
        (Reply.json 200 "timeout" (some ("Command execution timeout")),
         applyEffects clearedMailbox (notify cmd h))
  else
    (Reply.notFound, m)

/-- A tool's declared JSON-schema argument description: the typed properties
and which of them are required (enum choices and prose descriptions omitted). -/
structure ToolSchema where
  properties : List (String × String)
  required : List String
deriving DecidableEq

/-- An entry of the bridge's tool catalog. -/
structure Tool where
  name : String
  inputSchema : ToolSchema
deriving DecidableEq

/-- `list_tools` of `mcp_bridge_server.py`: the full catalog, in source order. -/
def list_tools : List Tool :=
  [⟨"create_cube",
    ⟨[("size", "number"), ("name", "string"), ("plane", "string"),
      ("cx", "number"), ("cy", "number"), ("cz", "number")], ["size"]⟩⟩,
   ⟨"create_cylinder",
    ⟨[("radius", "number"), ("height", "number"), ("name", "string"),
      ("plane", "string"), ("cx", "number"), ("cy", "number"), ("cz", "number")],
     ["radius", "height"]⟩⟩,
   ⟨"create_box",
    ⟨[("width", "number"), ("depth", "number"), ("height", "number"),
      ("name", "string"), ("plane", "string"), ("cx", "number"), ("cy", "number"),
      ("cz", "number")], ["width", "depth", "height"]⟩⟩,
   ⟨"create_sphere",
    ⟨[("radius", "number"), ("name", "string"), ("plane", "string"),
      ("cx", "number"), ("cy", "number"), ("cz", "number")], ["radius"]⟩⟩,
   ⟨"create_cone",
    ⟨[("radius", "number"), ("height", "number"), ("name", "string"),
      ("plane", "string"), ("cx", "number"), ("cy", "number"), ("cz", "number")],
     ["radius", "height"]⟩⟩,
   ⟨"create_sq_pyramid",
    ⟨[("side_length", "number"), ("height", "number"), ("name", "string"),
      ("plane", "string"), ("cx", "number"), ("cy", "number"), ("cz", "number")],
     ["side_length", "height"]⟩⟩,
   ⟨"create_tri_pyramid",
    ⟨[("side_length", "number"), ("height", "number"), ("name", "string"),
      ("plane", "string"), ("cx", "number"), ("cy", "number"), ("cz", "number")],
     ["side_length", "height"]⟩⟩,
   ⟨"select_body", ⟨[("body_name", "string")], ["body_name"]⟩⟩,
   ⟨"select_bodies",
    ⟨[("body_name1", "string"), ("body_name2", "string")],
     ["body_name1", "body_name2"]⟩⟩,
   ⟨"select_edges",
    ⟨[("body_name", "string"), ("edge_type", "string")],
     ["body_name", "edge_type"]⟩⟩,
   ⟨"add_fillet", ⟨[("radius", "number")], ["radius"]⟩⟩,
   ⟨"move_selection",
    ⟨[("x_dist", "number"), ("y_dist", "number"), ("z_dist", "number")],
     ["x_dist", "y_dist", "z_dist"]⟩⟩,
   ⟨"rotate_selection",
    ⟨[("axis", "string"), ("angle", "number"), ("cx", "number"), ("cy", "number"),
      ("cz", "number")], ["axis", "angle", "cx", "cy", "cz"]⟩⟩,
   ⟨"combine_selection", ⟨[("operation", "string")], ["operation"]⟩⟩,
   ⟨"combine_by_name",
    ⟨[("target_body", "string"), ("tool_body", "string"), ("operation", "string")],
     ["target_body", "tool_body", "operation"]⟩⟩,
   ⟨"undo", ⟨[], []⟩⟩,
   ⟨"redo", ⟨[], []⟩⟩]

/-- A value in the `arguments` dict of a tool call. -/
inductive Val where
  | num (q : ℚ)
  | str (s : String)
deriving DecidableEq

/-- The `arguments` dict (keys unique in a Python dict; first match wins). -/
def Args := List (String × Val)

/-- Python `args.get(key, default)`. -/
def aget (args : Args) (key : String) (dflt : Val) : Val :=
  match args.find? (fun kv => kv.1 == key) with
  | some kv => kv.2
  | none => dflt

/-- How a value is interpolated into the wire f-string (one token, provided
string values are `wireSafe`). -/
def valTok : Val → Tok
  | Val.num q => Tok.num q
  | Val.str s => Tok.str s

/-- `build_command` of `mcp_bridge_server.py`: every known tool name builds its
wire command from `args.get` with per-argument defaults — no presence or type
validation whatsoever — and an unknown tool name raises
`ValueError(f"Unknown tool: {name}")`. -/
def build_command (name : String) (args : Args) : Except String (List Tok) :=
  if name = "create_cube" then
    Except.ok [Tok.str ("create_cube"), valTok (aget args "size" (Val.num 10)),
      valTok (aget args "name" (Val.str ("none"))),
      valTok (aget args "plane" (Val.str ("xy"))),
      valTok (aget args "cx" (Val.num 0)), valTok (aget args "cy" (Val.num 0)),
      valTok (aget args "cz" (Val.num 0))]
  else if name = "create_cylinder" then
    Except.ok [Tok.str ("create_cylinder"), valTok (aget args "radius" (Val.num 5)),
      valTok (aget args "height" (Val.num 10)),
      valTok (aget args "name" (Val.str ("none"))),
      valTok (aget args "plane" (Val.str ("xy"))),
      valTok (aget args "cx" (Val.num 0)), valTok (aget args "cy" (Val.num 0)),
      valTok (aget args "cz" (Val.num 0))]
  else if name = "create_box" then
    Except.ok [Tok.str ("create_box"), valTok (aget args "width" (Val.num 10)),
      valTok (aget args "depth" (Val.num 10)),
      valTok (aget args "height" (Val.num 10)),
      valTok (aget args "name" (Val.str ("none"))),
      valTok (aget args "plane" (Val.str ("xy"))),
      valTok (aget args "cx" (Val.num 0)), valTok (aget args "cy" (Val.num 0)),
      valTok (aget args "cz" (Val.num 0))]
  else if name = "create_sphere" then
    Except.ok [Tok.str ("create_sphere"), valTok (aget args "radius" (Val.num 5)),
      valTok (aget args "name" (Val.str ("none"))),
      valTok (aget args "plane" (Val.str ("xy"))),
      valTok (aget args "cx" (Val.num 0)), valTok (aget args "cy" (Val.num 0)),
      valTok (aget args "cz" (Val.num 0))]
  else if name = "create_cone" then
    Except.ok [Tok.str ("create_cone"), valTok (aget args "radius" (Val.num 5)),
      valTok (aget args "height" (Val.num 10)),
      valTok (aget args "name" (Val.str ("none"))),
      valTok (aget args "plane" (Val.str ("xy"))),
      valTok (aget args "cx" (Val.num 0)), valTok (aget args "cy" (Val.num 0)),
      valTok (aget args "cz" (Val.num 0))]
  else if name = "create_sq_pyramid" then
    Except.ok [Tok.str ("create_sq_pyramid"),
      valTok (aget args "side_length" (Val.num 10)),
      valTok (aget args "height" (Val.num 10)),
      valTok (aget args "name" (Val.str ("none"))),
      valTok (aget args "plane" (Val.str ("xy"))),
      valTok (aget args "cx" (Val.num 0)), valTok (aget args "cy" (Val.num 0)),
      valTok (aget args "cz" (Val.num 0))]
  else if name = "create_tri_pyramid" then
    Except.ok [Tok.str ("create_tri_pyramid"),
      valTok (aget args "side_length" (Val.num 10)),
      valTok (aget args "height" (Val.num 10)),
      valTok (aget args "name" (Val.str ("none"))),
      valTok (aget args "plane" (Val.str ("xy"))),
      valTok (aget args "cx" (Val.num 0)), valTok (aget args "cy" (Val.num 0)),
      valTok (aget args "cz" (Val.num 0))]
  else if name = "select_body" then
    Except.ok [Tok.str ("select_body"), valTok (aget args "body_name" (Val.str ("")))]
  else if name = "select_bodies" then
    Except.ok [Tok.str ("select_bodies"),
      valTok (aget args "body_name1" (Val.str (""))),
      valTok (aget args "body_name2" (Val.str ("")))]
  else if name = "select_edges" then
    Except.ok [Tok.str ("select_edges"),
      valTok (aget args "body_name" (Val.str (""))),
      valTok (aget args "edge_type" (Val.str ("all")))]
  else if name = "add_fillet" then
    Except.ok [Tok.str ("add_fillet"), valTok (aget args "radius" (Val.num 1))]
  else if name = "move_selection" then
    Except.ok [Tok.str ("move_selection"), valTok (aget args "x_dist" (Val.num 0)),
      valTok (aget args "y_dist" (Val.num 0)), valTok (aget args "z_dist" (Val.num 0))]
  else if name = "rotate_selection" then
    Except.ok [Tok.str ("rotate_selection"), valTok (aget args "axis" (Val.str ("z"))),
      valTok (aget args "angle" (Val.num 0)), valTok (aget args "cx" (Val.num 0)),
      valTok (aget args "cy" (Val.num 0)), valTok (aget args "cz" (Val.num 0))]
  else if name = "combine_selection" then
    Except.ok [Tok.str ("combine_selection"),
      valTok (aget args "operation" (Val.str ("join")))]
  else if name = "combine_by_name" then
    Except.ok [Tok.str ("combine_by_name"),
      valTok (aget args "target_body" (Val.str (""))),
      valTok (aget args "tool_body" (Val.str (""))),
      valTok (aget args "operation" (Val.str ("join")))]
  else if name = "undo" then
    Except.ok [Tok.str ("undo")]
  else if name = "redo" then
    Except.ok [Tok.str ("redo")]
  else
    Except.error ("Unknown tool: " ++ name)

/-- `call_tool` of `mcp_bridge_server.py`: build the command and relay it via
`send_command_to_fusion` (abstracted as the `transport` function, since the
file-based transport lives outside the HTTP data path), catching any local
exception as an `Error: ...` text result that is never sent to the host. -/
def call_tool (name : String) (args : Args) (transport : List Tok → String) :
    String :=
  match build_command name args with
  | Except.ok w => transport w
  | Except.error e => "Error: " ++ e

/-- A process environment (what `os.environ.get` consults). -/
def EnvMap := String → Option String

/-- `COMMAND_FILE_PATH = os.environ.get("FUSION_COMMAND_FILE", default)`. -/
def COMMAND_FILE_PATH (env : EnvMap) : String :=
  (env ("FUSION_COMMAND_FILE")).getD ("C:\\Users\\tomo123\\Documents\\fusion_command.txt")

/-- `RESPONSE_FILE_PATH = os.environ.get("FUSION_RESPONSE_FILE", default)`. -/
def RESPONSE_FILE_PATH (env : EnvMap) : String :=
  (env ("FUSION_RESPONSE_FILE")).getD ("C:\\Users\\tomo123\\Documents\\fusion_response.txt")

/-- `HTTP_HOST = "127.0.0.1"` — a bare constant: the source consults no
environment variable for it. -/
def HTTP_HOST (env : EnvMap) : String := "127.0.0.1"

/-- `HTTP_PORT = 8080` — a bare constant. -/
def HTTP_PORT (env : EnvMap) : Nat := 8080

/-- The listener's `_response_ready.wait(timeout=30.0)` bound — a literal. -/
def response_wait_timeout (env : EnvMap) : ℚ := 30

/-- The bridge's `send_command_to_fusion(command, timeout=10.0)` default — a
literal. -/
def send_timeout_default (env : EnvMap) : ℚ := 10

/-- A configuration value is overridable via the environment iff two
environments can make it differ. -/
def Overridable {α : Type} (f : EnvMap → α) : Prop :=
  ∃ e₁ e₂ : EnvMap, f e₁ ≠ f e₂

/-- A quiet host: nothing selected, no bodies, undo/redo available, API sound. -/
def sampleHost : Host :=
  { selections := [], bodies := [], undoCmd := true, redoCmd := true,
    apiFails := false, exc := "Traceback (most recent call last): ...",
    defaultName := "Body1" }

/-- A host whose modelling API raises inside every handler body. -/
def failingHost : Host :=
  { selections := [], bodies := [], undoCmd := true, redoCmd := true,
    apiFails := true, exc := "Traceback (most recent call last): ...",
    defaultName := "Body1" }

@[simp] theorem writesOf_nil : writesOf [] = [] := rfl

@[simp] theorem writesOf_cons_write (m : String) (l : List Effect) :
    writesOf (Effect.write m :: l) = m :: writesOf l := rfl

@[simp] theorem writesOf_cons_box (m : String) (l : List Effect) :
    writesOf (Effect.box m :: l) = writesOf l := rfl

@[simp] theorem writesOf_cons_log (m : String) (l : List Effect) :
    writesOf (Effect.log m :: l) = writesOf l := rfl

@[simp] theorem writesOf_cons_call (op : String) (l : List Effect) :
    writesOf (Effect.call op :: l) = writesOf l := rfl

@[simp] theorem boxesOf_nil : boxesOf [] = [] := rfl

@[simp] theorem boxesOf_cons_write (m : String) (l : List Effect) :
    boxesOf (Effect.write m :: l) = boxesOf l := rfl

@[simp] theorem boxesOf_cons_box (m : String) (l : List Effect) :
    boxesOf (Effect.box m :: l) = m :: boxesOf l := rfl

@[simp] theorem boxesOf_cons_log (m : String) (l : List Effect) :
    boxesOf (Effect.log m :: l) = boxesOf l := rfl

@[simp] theorem boxesOf_cons_call (op : String) (l : List Effect) :
    boxesOf (Effect.call op :: l) = boxesOf l := rfl

@[simp] theorem callsOf_nil : callsOf [] = [] := rfl

@[simp] theorem callsOf_cons_write (m : String) (l : List Effect) :
    callsOf (Effect.write m :: l) = callsOf l := rfl

@[simp] theorem callsOf_cons_box (m : String) (l : List Effect) :
    callsOf (Effect.box m :: l) = callsOf l := rfl

@[simp] theorem callsOf_cons_log (m : String) (l : List Effect) :
    callsOf (Effect.log m :: l) = callsOf l := rfl

@[simp] theorem callsOf_cons_call (op : String) (l : List Effect) :
    callsOf (Effect.call op :: l) = op :: callsOf l := rfl

theorem writes_create_cube_le (s : ℚ) (n : Option String) (p : String)
    (cx cy cz : ℚ) (h : Host) : (writesOf (create_cube s n p cx cy cz h)).length ≤ 1 := by
  unfold create_cube
  split <;> simp

theorem writes_create_cylinder_le (r ht : ℚ) (n : Option String) (p : String)
    (cx cy cz : ℚ) (h : Host) :
    (writesOf (create_cylinder r ht n p cx cy cz h)).length ≤ 1 := by
  unfold create_cylinder
  split <;> simp

theorem writes_create_box_le (w d ht : ℚ) (n : Option String) (p : String)
    (cx cy cz : ℚ) (h : Host) :
    (writesOf (create_box w d ht n p cx cy cz h)).length ≤ 1 := by
  unfold create_box
  split <;> simp

theorem writes_create_sphere_le (r : ℚ) (n : Option String) (p : String)
    (cx cy cz : ℚ) (h : Host) :
    (writesOf (create_sphere r n p cx cy cz h)).length ≤ 1 := by
  unfold create_sphere
  split <;> simp

theorem writes_create_cone_le (r ht : ℚ) (n : Option String) (p : String)
    (cx cy cz : ℚ) (h : Host) :
    (writesOf (create_cone r ht n p cx cy cz h)).length ≤ 1 := by
  unfold create_cone
  split <;> simp

theorem writes_create_sq_pyramid_le (s ht : ℚ) (n : Option String) (p : String)
    (cx cy cz : ℚ) (h : Host) :
    (writesOf (create_sq_pyramid s ht n p cx cy cz h)).length ≤ 1 := by
  unfold create_sq_pyramid
  split <;> simp

theorem writes_create_tri_pyramid_le (s ht : ℚ) (n : Option String) (p : String)
    (cx cy cz : ℚ) (h : Host) :
    (writesOf (create_tri_pyramid s ht n p cx cy cz h)).length ≤ 1 := by
  unfold create_tri_pyramid
  split <;> simp

theorem writes_add_fillet_le (r : ℚ) (h : Host) :
    (writesOf (add_fillet_to_selection r h)).length ≤ 1 := by
  simp only [add_fillet_to_selection]
  repeat' split
  all_goals simp

theorem writes_select_edges_le (bn et : String) (h : Host) :
    (writesOf (select_edges_of_body bn et h)).length ≤ 1 := by
  simp only [select_edges_of_body]
  repeat' split
  all_goals simp

theorem writes_combine_on_selection_le (op : String) (h : Host) :
    (writesOf (perform_combine_on_selection op h)).length ≤ 1 := by
  simp only [perform_combine_on_selection]
  repeat' split
  all_goals simp

theorem writes_select_two_bodies_le (n1 n2 : String) (h : Host) :
    (writesOf (select_two_bodies_by_name n1 n2 h)).length ≤ 1 := by
  simp only [select_two_bodies_by_name]
  repeat' split
  all_goals simp

theorem writes_combine_by_name_le (t tl op : String) (h : Host) :
    (writesOf (perform_combine_by_name t tl op h)).length ≤ 1 := by
  simp only [perform_combine_by_name]
  repeat' split
  all_goals simp

theorem writes_move_selection_le (x y z : ℚ) (h : Host) :
    (writesOf (move_selection x y z h)).length ≤ 1 := by
  simp only [move_selection]
  repeat' split
  all_goals simp

theorem writes_select_one_body_le (bn : String) (h : Host) :
    (writesOf (select_one_body_by_name bn h)).length ≤ 1 := by
  simp only [select_one_body_by_name]
  repeat' split
  all_goals simp

theorem writes_undo_le (h : Host) : (writesOf (perform_undo h)).length ≤ 1 := by
  simp only [perform_undo]
  repeat' split
  all_goals simp

theorem writes_redo_le (h : Host) : (writesOf (perform_redo h)).length ≤ 1 := by
  simp only [perform_redo]
  repeat' split
  all_goals simp

theorem writes_rotate_selection_le (a : String) (ang cx cy cz : ℚ) (h : Host) :
    (writesOf (rotate_selection a ang cx cy cz h)).length ≤ 1 := by
  simp only [rotate_selection]
  repeat' split
  all_goals simp

/-- Branch-level unfolding lemmas for `dispatch` at each literal operation
name (definitional). -/
theorem dispatch_eq_undo (parts : List Tok) (h : Host) :
    dispatch ("undo") parts h = Effect.call ("undo") :: perform_undo h := rfl

theorem dispatch_eq_redo (parts : List Tok) (h : Host) :
    dispatch ("redo") parts h = Effect.call ("redo") :: perform_redo h := rfl

theorem dispatch_eq_create_cube (parts : List Tok) (h : Host) :
    dispatch ("create_cube") parts h =
      (match decode_create_cube parts with
       | some a => Effect.call ("create_cube") :: create_cube a.p1 a.body_name a.plane_str a.cx a.cy a.cz h
       | none => [Effect.box ("Invalid format. Usage: create_cube <size> [name] [plane] [cx] [cy] [cz]")]) := rfl

theorem dispatch_eq_create_cylinder (parts : List Tok) (h : Host) :
    dispatch ("create_cylinder") parts h =
      (match decode_create_cylinder parts with
       | some a => Effect.call ("create_cylinder") :: create_cylinder a.p1 a.p2 a.body_name a.plane_str a.cx a.cy a.cz h
       | none => [Effect.box ("Invalid format. Usage: create_cylinder <radius> <height> [name] [plane] [cx] [cy] [cz]")]) := rfl

theorem dispatch_eq_create_box (parts : List Tok) (h : Host) :
    dispatch ("create_box") parts h =
      (match decode_create_box parts with
       | some a => Effect.call ("create_box") :: create_box a.p1 a.p2 a.p3 a.body_name a.plane_str a.cx a.cy a.cz h
       | none => [Effect.box ("Invalid format. Usage: create_box <w> <d> <h> [name] [plane] [cx] [cy] [cz]")]) := rfl

theorem dispatch_eq_create_sphere (parts : List Tok) (h : Host) :
    dispatch ("create_sphere") parts h =
      (match decode_create_sphere parts with
       | some a => Effect.call ("create_sphere") :: create_sphere a.p1 a.body_name a.plane_str a.cx a.cy a.cz h
       | none => [Effect.box ("Invalid format. Usage: create_sphere <radius> [name] [plane] [cx] [cy] [cz]")]) := rfl

theorem dispatch_eq_create_cone (parts : List Tok) (h : Host) :
    dispatch ("create_cone") parts h =
      (match decode_create_cone parts with
       | some a => Effect.call ("create_cone") :: create_cone a.p1 a.p2 a.body_name a.plane_str a.cx a.cy a.cz h
       | none => [Effect.box ("Invalid format. Usage: create_cone <radius> <height> [name] [plane] [cx] [cy] [cz]")]) := rfl

theorem dispatch_eq_create_sq_pyramid (parts : List Tok) (h : Host) :
    dispatch ("create_sq_pyramid") parts h =
      (match decode_create_sq_pyramid parts with
       | some a => Effect.call ("create_sq_pyramid") :: create_sq_pyramid a.p1 a.p2 a.body_name a.plane_str a.cx a.cy a.cz h
       | none => [Effect.box ("Invalid format. Usage: create_sq_pyramid <side> <h> [name] [plane] [cx] [cy] [cz]")]) := rfl

theorem dispatch_eq_create_tri_pyramid (parts : List Tok) (h : Host) :
    dispatch ("create_tri_pyramid") parts h =
      (match decode_create_tri_pyramid parts with
       | some a => Effect.call ("create_tri_pyramid") :: create_tri_pyramid a.p1 a.p2 a.body_name a.plane_str a.cx a.cy a.cz h
       | none => [Effect.box ("Invalid format. Usage: create_tri_pyramid <side> <h> [name] [plane] [cx] [cy] [cz]")]) := rfl

theorem dispatch_eq_add_fillet (parts : List Tok) (h : Host) :
    dispatch ("add_fillet") parts h =
      (match decode_add_fillet parts with
       | some a => Effect.call ("add_fillet") :: add_fillet_to_selection a h
       | none => [Effect.box ("Invalid format. Expected: add_fillet <radius_mm>")]) := rfl

theorem dispatch_eq_select_edges (parts : List Tok) (h : Host) :
    dispatch ("select_edges") parts h =
      (match decode_select_edges parts with
       | some a => Effect.call ("select_edges") :: select_edges_of_body a.1 a.2 h
       | none => [Effect.box ("Invalid format. Expected: select_edges <body_name> <all|circular>")]) := rfl

theorem dispatch_eq_combine_selection (parts : List Tok) (h : Host) :
    dispatch ("combine_selection") parts h =
      (match decode_combine_selection parts with
       | some a => Effect.call ("combine_selection") :: perform_combine_on_selection a h
       | none => [Effect.box ("Invalid format. Expected: combine_selection <join|cut|intersect>")]) := rfl

theorem dispatch_eq_select_bodies (parts : List Tok) (h : Host) :
    dispatch ("select_bodies") parts h =
      (match decode_select_bodies parts with
       | some a => Effect.call ("select_bodies") :: select_two_bodies_by_name a.1 a.2 h
       | none => [Effect.box ("Invalid format. Expected: select_bodies <body_name1> <body_name2>")]) := rfl

theorem dispatch_eq_combine_by_name (parts : List Tok) (h : Host) :
    dispatch ("combine_by_name") parts h =
      (match decode_combine_by_name parts with
       | some a => Effect.call ("combine_by_name") :: perform_combine_by_name a.1 a.2.1 a.2.2 h
       | none => [Effect.box ("Invalid format. Expected: combine_by_name <target_body> <tool_body> <join|cut|intersect>")]) := rfl

theorem dispatch_eq_move_selection (parts : List Tok) (h : Host) :
    dispatch ("move_selection") parts h =
      (match decode_move_selection parts with
       | some a => Effect.call ("move_selection") :: move_selection a.1 a.2.1 a.2.2 h
       | none => [Effect.box ("Invalid format. Expected: move_selection <x_dist> <y_dist> <z_dist>")]) := rfl

theorem dispatch_eq_select_body (parts : List Tok) (h : Host) :
    dispatch ("select_body") parts h =
      (match decode_select_body parts with
       | some a => Effect.call ("select_body") :: select_one_body_by_name a h
       | none => [Effect.box ("Invalid format. Expected: select_body <body_name>")]) := rfl

theorem dispatch_eq_rotate_selection (parts : List Tok) (h : Host) :
    dispatch ("rotate_selection") parts h =
      (match decode_rotate_selection parts with
       | some a => Effect.call ("rotate_selection") :: rotate_selection a.axis a.angle a.cx a.cy a.cz h
       | none => [Effect.box ("Invalid format. Expected: rotate_selection <axis> <angle> <cx> <cy> <cz>")]) := rfl

/-- An operation name outside the dispatch chain falls through to the
unknown-command message box. -/
theorem dispatch_unknown (name : String) (parts : List Tok) (h : Host)
    (hk : name ∉ knownOps) :
    dispatch name parts h = [Effect.box ("Unknown command: \x27" ++ name ++ "\x27")] := by
  simp only [knownOps, List.mem_cons, List.not_mem_nil, or_false] at hk
  push_neg at hk
  obtain ⟨h1, h2, h3, h4, h5, h6, h7, h8, h9, h10, h11, h12, h13, h14, h15, h16, h17⟩ := hk
  delta dispatch
  rw [if_neg h1, if_neg h2, if_neg h3, if_neg h4, if_neg h5, if_neg h6, if_neg h7,
    if_neg h8, if_neg h9, if_neg h10, if_neg h11, if_neg h12, if_neg h13, if_neg h14,
    if_neg h15, if_neg h16, if_neg h17]

/-- Every dispatch outcome performs at most one mailbox write. -/
theorem writes_dispatch_le (name : String) (parts : List Tok) (h : Host) :
    (writesOf (dispatch name parts h)).length ≤ 1 := by
  by_cases hk : name ∈ knownOps
  · simp only [knownOps, List.mem_cons, List.not_mem_nil, or_false] at hk
    rcases hk with h1 | h1 | h1 | h1 | h1 | h1 | h1 | h1 | h1 | h1 | h1 | h1 | h1 | h1 | h1 | h1 | h1 <;>
      subst h1
    · rw [dispatch_eq_create_cube]
      split
      · simp only [writesOf_cons_call]
        apply writes_create_cube_le
      · simp
    · rw [dispatch_eq_create_cylinder]
      split
      · simp only [writesOf_cons_call]
        apply writes_create_cylinder_le
      · simp
    · rw [dispatch_eq_create_box]
      split
      · simp only [writesOf_cons_call]
        apply writes_create_box_le
      · simp
    · rw [dispatch_eq_create_sphere]
      split
      · simp only [writesOf_cons_call]
        apply writes_create_sphere_le
      · simp
    · rw [dispatch_eq_create_cone]
      split
      · simp only [writesOf_cons_call]
        apply writes_create_cone_le
      · simp
    · rw [dispatch_eq_create_sq_pyramid]
      split
      · simp only [writesOf_cons_call]
        apply writes_create_sq_pyramid_le
      · simp
    · rw [dispatch_eq_create_tri_pyramid]
      split
      · simp only [writesOf_cons_call]
        apply writes_create_tri_pyramid_le
      · simp
    · rw [dispatch_eq_add_fillet]
      split
      · simp only [writesOf_cons_call]
        apply writes_add_fillet_le
      · simp
    · rw [dispatch_eq_select_edges]
      split
      · simp only [writesOf_cons_call]
        apply writes_select_edges_le
      · simp
    · rw [dispatch_eq_combine_selection]
      split
      · simp only [writesOf_cons_call]
        apply writes_combine_on_selection_le
      · simp
    · rw [dispatch_eq_select_bodies]
      split
      · simp only [writesOf_cons_call]
        apply writes_select_two_bodies_le
      · simp
    · rw [dispatch_eq_combine_by_name]
      split
      · simp only [writesOf_cons_call]
        apply writes_combine_by_name_le
      · simp
    · rw [dispatch_eq_move_selection]
      split
      · simp only [writesOf_cons_call]
        apply writes_move_selection_le
      · simp
    · rw [dispatch_eq_select_body]
      split
      · simp only [writesOf_cons_call]
        apply writes_select_one_body_le
      · simp
    · rw [dispatch_eq_undo]
      simp only [writesOf_cons_call]
      apply writes_undo_le
    · rw [dispatch_eq_redo]
      simp only [writesOf_cons_call]
      apply writes_redo_le
    · rw [dispatch_eq_rotate_selection]
      split
      · simp only [writesOf_cons_call]
        apply writes_rotate_selection_le
      · simp
  · rw [dispatch_unknown name parts h hk]
    simp

/-- Every `notify` invocation performs at most one mailbox write. -/
theorem writes_notify_le (parts : List Tok) (h : Host) :
    (writesOf (notify parts h)).length ≤ 1 := by
  cases parts with
  | nil => simp [notify]
  | cons t rest =>
    show (writesOf (Effect.log _ :: dispatch (tokStr t) (t :: rest) h)).length ≤ 1
    rw [writesOf_cons_log]
    apply writes_dispatch_le

/-- Both branches of every shape-creation handler (caught exception and
success) write exactly one response. -/
theorem writes_create_cube_eq_one (s : ℚ) (n : Option String) (p : String)
    (cx cy cz : ℚ) (h : Host) :
    (writesOf (create_cube s n p cx cy cz h)).length = 1 := by
  unfold create_cube
  split <;> simp

theorem writes_create_cylinder_eq_one (r ht : ℚ) (n : Option String) (p : String)
    (cx cy cz : ℚ) (h : Host) :
    (writesOf (create_cylinder r ht n p cx cy cz h)).length = 1 := by
  unfold create_cylinder
  split <;> simp

theorem writes_create_box_eq_one (w d ht : ℚ) (n : Option String) (p : String)
    (cx cy cz : ℚ) (h : Host) :
    (writesOf (create_box w d ht n p cx cy cz h)).length = 1 := by
  unfold create_box
  split <;> simp

theorem writes_create_sphere_eq_one (r : ℚ) (n : Option String) (p : String)
    (cx cy cz : ℚ) (h : Host) :
    (writesOf (create_sphere r n p cx cy cz h)).length = 1 := by
  unfold create_sphere
  split <;> simp

theorem writes_create_cone_eq_one (r ht : ℚ) (n : Option String) (p : String)
    (cx cy cz : ℚ) (h : Host) :
    (writesOf (create_cone r ht n p cx cy cz h)).length = 1 := by
  unfold create_cone
  split <;> simp

theorem writes_create_sq_pyramid_eq_one (s ht : ℚ) (n : Option String) (p : String)
    (cx cy cz : ℚ) (h : Host) :
    (writesOf (create_sq_pyramid s ht n p cx cy cz h)).length = 1 := by
  unfold create_sq_pyramid
  split <;> simp

theorem writes_create_tri_pyramid_eq_one (s ht : ℚ) (n : Option String) (p : String)
    (cx cy cz : ℚ) (h : Host) :
    (writesOf (create_tri_pyramid s ht n p cx cy cz h)).length = 1 := by
  unfold create_tri_pyramid
  split <;> simp

/-- All three outcomes of undo (success, raising execute, missing command
definition) write exactly one response. -/
theorem writes_undo_eq_one (h : Host) : (writesOf (perform_undo h)).length = 1 := by
  simp only [perform_undo]
  repeat' split
  all_goals simp

theorem writes_redo_eq_one (h : Host) : (writesOf (perform_redo h)).length = 1 := by
  simp only [perform_redo]
  repeat' split
  all_goals simp

/-- Once both of its precondition checks pass, `add_fillet_to_selection`
writes exactly one response (FAILED on a raising API, SUCCESS otherwise). -/
theorem writes_add_fillet_eq_one (r : ℚ) (h : Host)
    (h1 : h.selections.length ≠ 0)
    (h2 : (h.selections.filter isEdge).length ≠ 0) :
    (writesOf (add_fillet_to_selection r h)).length = 1 := by
  simp only [add_fillet_to_selection]
  rw [if_neg h1, if_neg h2]
  split <;> simp

/-- Once the target body is found, `select_edges_of_body` writes exactly one
response (FAILED, SUCCESS or WARNING). -/
theorem writes_select_edges_eq_one (bn et : String) (h : Host) (b : FBody)
    (hf : h.bodies.find? (fun x => x.name == bn) = some b) :
    (writesOf (select_edges_of_body bn et h)).length = 1 := by
  simp only [select_edges_of_body, hf]
  repeat' split
  all_goals simp

/-- Once exactly two bodies are selected, `perform_combine_on_selection`
writes exactly one response provided the modelling API raises (which preempts
the operation-name check) or the operation name is valid. -/
theorem writes_combine_on_selection_eq_one (op : String) (h : Host)
    (h1 : h.selections.length = 2)
    (hb1 : isBody (h.selections.getD 0 SelEntity.other) = true)
    (hb2 : isBody (h.selections.getD 1 SelEntity.other) = true)
    (hok : h.apiFails = true ∨ pyLower op ∈ combineOps) :
    (writesOf (perform_combine_on_selection op h)).length = 1 := by
  have hlen : ¬ h.selections.length ≠ 2 := by simp [h1]
  have hbodies : (!(isBody (h.selections.getD 0 SelEntity.other)
      && isBody (h.selections.getD 1 SelEntity.other))) = false := by
    rw [hb1, hb2]
    rfl
  simp only [perform_combine_on_selection]
  rw [if_neg hlen, hbodies, if_neg Bool.false_ne_true]
  rcases hok with hapi | hop
  · rw [if_pos hapi]
    simp
  · cases h.apiFails
    · have hnop : ¬ pyLower op ∉ combineOps := by simp [hop]
      rw [if_neg Bool.false_ne_true, if_neg hnop]
      simp
    · rw [if_pos rfl]
      simp

/-- Once both named bodies are found, `select_two_bodies_by_name` writes
exactly one response. -/
theorem writes_select_two_bodies_eq_one (n1 n2 : String) (h : Host) (b1 b2 : FBody)
    (hf1 : h.bodies.find? (fun x => x.name == n1) = some b1)
    (hf2 : h.bodies.find? (fun x => x.name != n1 && x.name == n2) = some b2) :
    (writesOf (select_two_bodies_by_name n1 n2 h)).length = 1 := by
  simp only [select_two_bodies_by_name, hf1, hf2]
  split <;> simp

/-- Once both named bodies are found, `perform_combine_by_name` writes exactly
one response provided the modelling API raises or the operation name is
valid. -/
theorem writes_combine_by_name_eq_one (t tl op : String) (h : Host) (b1 b2 : FBody)
    (hf1 : h.bodies.find? (fun x => x.name == t) = some b1)
    (hf2 : h.bodies.find? (fun x => x.name != t && x.name == tl) = some b2)
    (hok : h.apiFails = true ∨ pyLower op ∈ combineOps) :
    (writesOf (perform_combine_by_name t tl op h)).length = 1 := by
  rcases hok with hapi | hop
  · simp [perform_combine_by_name, hf1, hf2, hapi]
  · cases hapi : h.apiFails
    · simp [perform_combine_by_name, hf1, hf2, hapi, hop]
    · simp [perform_combine_by_name, hf1, hf2, hapi]

/-- Once its precondition checks pass, `move_selection` writes exactly one
response. -/
theorem writes_move_selection_eq_one (x y z : ℚ) (h : Host)
    (h1 : h.selections.length ≠ 0)
    (h2 : (h.selections.filter isBody).length ≠ 0) :
    (writesOf (move_selection x y z h)).length = 1 := by
  simp only [move_selection]
  rw [if_neg h1, if_neg h2]
  split <;> simp

/-- Once the named body is found, `select_one_body_by_name` writes exactly one
response. -/
theorem writes_select_one_body_eq_one (bn : String) (h : Host) (b : FBody)
    (hf : h.bodies.find? (fun x => x.name == bn) = some b) :
    (writesOf (select_one_body_by_name bn h)).length = 1 := by
  simp only [select_one_body_by_name, hf]
  split <;> simp

/-- Once its precondition checks pass (one selected body, valid axis),
`rotate_selection` writes exactly one response. -/
theorem writes_rotate_selection_eq_one (a : String) (ang cx cy cz : ℚ) (h : Host)
    (h1 : h.selections.length = 1)
    (hb : isBody (h.selections.getD 0 SelEntity.other) = true)
    (hax : pyLower a ∈ ["x", "y", "z"]) :
    (writesOf (rotate_selection a ang cx cy cz h)).length = 1 := by
  have hlen : ¬ h.selections.length ≠ 1 := by simp [h1]
  have hbody : (!(isBody (h.selections.getD 0 SelEntity.other))) = false := by
    rw [hb]
    rfl
  have hnax : ¬ pyLower a ∉ ["x", "y", "z"] := by simp [hax]
  simp only [rotate_selection]
  rw [if_neg hlen, hbody, if_neg Bool.false_ne_true, if_neg hnax]
  split <;> simp

/-- Claim C1, counterexample: `combine_selection join` dispatched while zero
entities are selected writes NO response at all (the precondition rejection
returns after only a message box), refuting "exactly one mailbox write per
invocation, unconditionally". -/
theorem C1_counterexample :
    writesOf (notify [Tok.str ("combine_selection"), Tok.str ("join")] sampleHost) = []
      ∧ (writesOf (notify [Tok.str ("combine_selection"), Tok.str ("join")] sampleHost)).length ≠ 1 := by
  decide

/-- Claim C1 (amended): the interpreter writes at most one Response per
invocation.  Exactly one Response is written whenever the dispatched handler's
body reaches its modelling-API work, whether that work succeeds or raises (the
caught exception writes the FAILED Response): unconditionally for the seven
shape-creation handlers and for undo/redo, and for each remaining handler once
its precondition checks pass (for the two combine handlers a raising API may
preempt the operation-name check and still writes the FAILED Response).  Zero
Responses are written when the operation name is unknown, when a branch's
arguments fail to parse, or when a precondition check rejects the operation
(e.g. `combine_selection` with a selection count other than two): those paths
show only a UI message box, so such failures surface to the transport client
as timeouts. -/
theorem C1_write_discipline :
    (∀ (parts : List Tok) (h : Host), (writesOf (notify parts h)).length ≤ 1)
      ∧ (∀ (h : Host) (t : Tok) (rest : List Tok), tokStr t ∉ knownOps →
          writesOf (notify (t :: rest) h) = [])
      ∧ ((∀ (parts : List Tok) (h : Host), decode_create_cube parts = none →
            writesOf (dispatch ("create_cube") parts h) = [])
        ∧ (∀ (parts : List Tok) (h : Host), decode_create_cylinder parts = none →
            writesOf (dispatch ("create_cylinder") parts h) = [])
        ∧ (∀ (parts : List Tok) (h : Host), decode_create_box parts = none →
            writesOf (dispatch ("create_box") parts h) = [])
        ∧ (∀ (parts : List Tok) (h : Host), decode_create_sphere parts = none →
            writesOf (dispatch ("create_sphere") parts h) = [])
        ∧ (∀ (parts : List Tok) (h : Host), decode_create_cone parts = none →
            writesOf (dispatch ("create_cone") parts h) = [])
        ∧ (∀ (parts : List Tok) (h : Host), decode_create_sq_pyramid parts = none →
            writesOf (dispatch ("create_sq_pyramid") parts h) = [])
        ∧ (∀ (parts : List Tok) (h : Host), decode_create_tri_pyramid parts = none →
            writesOf (dispatch ("create_tri_pyramid") parts h) = [])
        ∧ (∀ (parts : List Tok) (h : Host), decode_add_fillet parts = none →
            writesOf (dispatch ("add_fillet") parts h) = [])
        ∧ (∀ (parts : List Tok) (h : Host), decode_select_edges parts = none →
            writesOf (dispatch ("select_edges") parts h) = [])
        ∧ (∀ (parts : List Tok) (h : Host), decode_combine_selection parts = none →
            writesOf (dispatch ("combine_selection") parts h) = [])
        ∧ (∀ (parts : List Tok) (h : Host), decode_select_bodies parts = none →
            writesOf (dispatch ("select_bodies") parts h) = [])
        ∧ (∀ (parts : List Tok) (h : Host), decode_combine_by_name parts = none →
            writesOf (dispatch ("combine_by_name") parts h) = [])
        ∧ (∀ (parts : List Tok) (h : Host), decode_move_selection parts = none →
            writesOf (dispatch ("move_selection") parts h) = [])
        ∧ (∀ (parts : List Tok) (h : Host), decode_select_body parts = none →
            writesOf (dispatch ("select_body") parts h) = [])
        ∧ (∀ (parts : List Tok) (h : Host), decode_rotate_selection parts = none →
            writesOf (dispatch ("rotate_selection") parts h) = []))
      ∧ ((∀ (s : ℚ) (n : Option String) (p : String) (cx cy cz : ℚ) (h : Host),
            (writesOf (create_cube s n p cx cy cz h)).length = 1)
        ∧ (∀ (r ht : ℚ) (n : Option String) (p : String) (cx cy cz : ℚ) (h : Host),
            (writesOf (create_cylinder r ht n p cx cy cz h)).length = 1)
        ∧ (∀ (w d ht : ℚ) (n : Option String) (p : String) (cx cy cz : ℚ) (h : Host),
            (writesOf (create_box w d ht n p cx cy cz h)).length = 1)
        ∧ (∀ (r : ℚ) (n : Option String) (p : String) (cx cy cz : ℚ) (h : Host),
            (writesOf (create_sphere r n p cx cy cz h)).length = 1)
        ∧ (∀ (r ht : ℚ) (n : Option String) (p : String) (cx cy cz : ℚ) (h : Host),
            (writesOf (create_cone r ht n p cx cy cz h)).length = 1)
        ∧ (∀ (s ht : ℚ) (n : Option String) (p : String) (cx cy cz : ℚ) (h : Host),
            (writesOf (create_sq_pyramid s ht n p cx cy cz h)).length = 1)
        ∧ (∀ (s ht : ℚ) (n : Option String) (p : String) (cx cy cz : ℚ) (h : Host),
            (writesOf (create_tri_pyramid s ht n p cx cy cz h)).length = 1)
        ∧ (∀ h : Host, (writesOf (perform_undo h)).length = 1)
        ∧ (∀ h : Host, (writesOf (perform_redo h)).length = 1)
        ∧ (∀ (r : ℚ) (h : Host), h.selections.length ≠ 0 →
            (h.selections.filter isEdge).length ≠ 0 →
            (writesOf (add_fillet_to_selection r h)).length = 1)
        ∧ (∀ (bn et : String) (h : Host) (b : FBody),
            h.bodies.find? (fun x => x.name == bn) = some b →
            (writesOf (select_edges_of_body bn et h)).length = 1)
        ∧ (∀ (op : String) (h : Host), h.selections.length = 2 →
            isBody (h.selections.getD 0 SelEntity.other) = true →
            isBody (h.selections.getD 1 SelEntity.other) = true →
            (h.apiFails = true ∨ pyLower op ∈ combineOps) →
            (writesOf (perform_combine_on_selection op h)).length = 1)
        ∧ (∀ (n1 n2 : String) (h : Host) (b1 b2 : FBody),
            h.bodies.find? (fun x => x.name == n1) = some b1 →
            h.bodies.find? (fun x => x.name != n1 && x.name == n2) = some b2 →
            (writesOf (select_two_bodies_by_name n1 n2 h)).length = 1)
        ∧ (∀ (t tl op : String) (h : Host) (b1 b2 : FBody),
            h.bodies.find? (fun x => x.name == t) = some b1 →
            h.bodies.find? (fun x => x.name != t && x.name == tl) = some b2 →
            (h.apiFails = true ∨ pyLower op ∈ combineOps) →
            (writesOf (perform_combine_by_name t tl op h)).length = 1)
        ∧ (∀ (x y z : ℚ) (h : Host), h.selections.length ≠ 0 →
            (h.selections.filter isBody).length ≠ 0 →
            (writesOf (move_selection x y z h)).length = 1)
        ∧ (∀ (bn : String) (h : Host) (b : FBody),
            h.bodies.find? (fun x => x.name == bn) = some b →
            (writesOf (select_one_body_by_name bn h)).length = 1)
        ∧ (∀ (a : String) (ang cx cy cz : ℚ) (h : Host), h.selections.length = 1 →
            isBody (h.selections.getD 0 SelEntity.other) = true →
            pyLower a ∈ ["x", "y", "z"] →
            (writesOf (rotate_selection a ang cx cy cz h)).length = 1))
      ∧ (∀ (h : Host) (t : Tok), h.selections.length ≠ 2 →
          writesOf (notify [Tok.str ("combine_selection"), t] h) = [])
      ∧ (∀ h : Host,
          writesOf (notify [Tok.str ("create_cube"), Tok.str ("abc")] h) = []) := by
  refine ⟨writes_notify_le, ?_, ?_, ?_, ?_, ?_⟩
  · intro h t rest hk
    have hbody : notify (t :: rest) h
        = Effect.log ("Executing: " ++ wireStr (t :: rest))
          :: dispatch (tokStr t) (t :: rest) h := rfl
    rw [hbody, dispatch_unknown (tokStr t) (t :: rest) h hk]
    simp
  · refine ⟨?_, ?_, ?_, ?_, ?_, ?_, ?_, ?_, ?_, ?_, ?_, ?_, ?_, ?_, ?_⟩
    · intro parts h hdec
      rw [dispatch_eq_create_cube, hdec]
      simp
    · intro parts h hdec
      rw [dispatch_eq_create_cylinder, hdec]
      simp
    · intro parts h hdec
      rw [dispatch_eq_create_box, hdec]
      simp
    · intro parts h hdec
      rw [dispatch_eq_create_sphere, hdec]
      simp
    · intro parts h hdec
      rw [dispatch_eq_create_cone, hdec]
      simp
    · intro parts h hdec
      rw [dispatch_eq_create_sq_pyramid, hdec]
      simp
    · intro parts h hdec
      rw [dispatch_eq_create_tri_pyramid, hdec]
      simp
    · intro parts h hdec
      rw [dispatch_eq_add_fillet, hdec]
      simp
    · intro parts h hdec
      rw [dispatch_eq_select_edges, hdec]
      simp
    · intro parts h hdec
      rw [dispatch_eq_combine_selection, hdec]
      simp
    · intro parts h hdec
      rw [dispatch_eq_select_bodies, hdec]
      simp
    · intro parts h hdec
      rw [dispatch_eq_combine_by_name, hdec]
      simp
    · intro parts h hdec
      rw [dispatch_eq_move_selection, hdec]
      simp
    · intro parts h hdec
      rw [dispatch_eq_select_body, hdec]
      simp
    · intro parts h hdec
      rw [dispatch_eq_rotate_selection, hdec]
      simp
  · exact ⟨writes_create_cube_eq_one, writes_create_cylinder_eq_one,
      writes_create_box_eq_one, writes_create_sphere_eq_one,
      writes_create_cone_eq_one, writes_create_sq_pyramid_eq_one,
      writes_create_tri_pyramid_eq_one, writes_undo_eq_one, writes_redo_eq_one,
      writes_add_fillet_eq_one, writes_select_edges_eq_one,
      writes_combine_on_selection_eq_one, writes_select_two_bodies_eq_one,
      writes_combine_by_name_eq_one, writes_move_selection_eq_one,
      writes_select_one_body_eq_one, writes_rotate_selection_eq_one⟩
  · intro h t hsel
    show writesOf (Effect.log _ ::
      dispatch (tokStr (Tok.str ("combine_selection")))
        [Tok.str ("combine_selection"), t] h) = []
    rw [writesOf_cons_log]
    have hd : tokStr (Tok.str ("combine_selection")) = "combine_selection" := rfl
    rw [hd, dispatch_eq_combine_selection]
    have hdec : decode_combine_selection [Tok.str ("combine_selection"), t]
        = some (tokStr t) := rfl
    rw [hdec]
    simp only [writesOf_cons_call]
    unfold perform_combine_on_selection
    rw [if_pos hsel]
    simp
  · intro h
    show writesOf (Effect.log _ ::
      dispatch (tokStr (Tok.str ("create_cube")))
        [Tok.str ("create_cube"), Tok.str ("abc")] h) = []
    rw [writesOf_cons_log]
    have hd : tokStr (Tok.str ("create_cube")) = "create_cube" := rfl
    rw [hd, dispatch_eq_create_cube]
    have hdec : decode_create_cube [Tok.str ("create_cube"), Tok.str ("abc")]
        = none := rfl
    rw [hdec]
    simp

/-- Claim C1, witness: a concrete precondition rejection (one body selected)
writes nothing; a concrete unknown operation writes nothing; a concrete parse
failure writes nothing; and a found `select_body` writes exactly one
response. -/
theorem C1_witness :
    writesOf (notify [Tok.str ("combine_selection"), Tok.str ("cut")]
        { selections := [SelEntity.body ("A")], bodies := [], undoCmd := true,
          redoCmd := true, apiFails := false, exc := "e", defaultName := "Body1" }) = []
      ∧ writesOf (notify [Tok.str ("bogus_op")] sampleHost) = []
      ∧ writesOf (dispatch ("create_cube")
          [Tok.str ("create_cube"), Tok.str ("abc")] sampleHost) = []
      ∧ (writesOf (select_one_body_by_name ("A")
          { selections := [], bodies := [{ name := "A", edges := [] }],
            undoCmd := true, redoCmd := true, apiFails := false, exc := "e",
            defaultName := "Body1" })).length = 1 :=
  ⟨C1_write_discipline.2.2.2.2.1
    { selections := [SelEntity.body ("A")], bodies := [], undoCmd := true,
      redoCmd := true, apiFails := false, exc := "e", defaultName := "Body1" }
    (Tok.str ("cut")) (by decide),
   C1_write_discipline.2.1 sampleHost (Tok.str ("bogus_op")) [] (by decide),
   C1_write_discipline.2.2.1.1 [Tok.str ("create_cube"), Tok.str ("abc")]
     sampleHost rfl,
   C1_write_discipline.2.2.2.1.2.2.2.2.2.2.2.2.2.2.2.2.2.2.2.1 ("A")
     { selections := [], bodies := [{ name := "A", edges := [] }],
       undoCmd := true, redoCmd := true, apiFails := false, exc := "e",
       defaultName := "Body1" }
     { name := "A", edges := [] } rfl⟩

/-- Claim C2, counterexample: an unknown operation produces NO response at all
(so no `error`-status Response either); it only shows a UI message box naming
the unknown command, and the HTTP client is left to time out. -/
theorem C2_counterexample :
    writesOf (notify [Tok.str ("frobnicate")] sampleHost) = []
      ∧ boxesOf (notify [Tok.str ("frobnicate")] sampleHost)
          = ["Unknown command: \x27frobnicate\x27"] := by
  decide

/-- Claim C2 (amended): for every command whose first token is not a known
operation name, the interpreter writes no response, invokes no handler, and
does not crash — the whole effect of the invocation is the palette log plus
one message box that names the unknown operation. -/
theorem C2_unknown_no_response (h : Host) (t : Tok) (rest : List Tok)
    (hk : tokStr t ∉ knownOps) :
    notify (t :: rest) h = [Effect.log ("Executing: " ++ wireStr (t :: rest)),
        Effect.box ("Unknown command: \x27" ++ tokStr t ++ "\x27")]
      ∧ writesOf (notify (t :: rest) h) = []
      ∧ callsOf (notify (t :: rest) h) = [] := by
  have hbody : notify (t :: rest) h
      = Effect.log ("Executing: " ++ wireStr (t :: rest))
        :: dispatch (tokStr t) (t :: rest) h := rfl
  rw [hbody, dispatch_unknown (tokStr t) (t :: rest) h hk]
  refine ⟨rfl, ?_, ?_⟩ <;> simp

/-- Claim C2, witness: the unknown operation `hello_world`. -/
theorem C2_witness :
    notify [Tok.str ("hello_world")] failingHost
        = [Effect.log ("Executing: " ++ wireStr [Tok.str ("hello_world")]),
           Effect.box ("Unknown command: \x27hello_world\x27")]
      ∧ writesOf (notify [Tok.str ("hello_world")] failingHost) = []
      ∧ callsOf (notify [Tok.str ("hello_world")] failingHost) = [] :=
  C2_unknown_no_response failingHost (Tok.str ("hello_world")) [] (by decide)

/-- Claim C6, counterexample: the interpreter does not accept a structured
JSON command object.  The JSON encoding of `undo` — the text
`\x7b"type": "undo"\x7d`, which `command.split()` turns into exactly these two
tokens — falls into the unknown-command branch: no `type` field is validated,
no handler is invoked, and no response is written. -/
theorem C6_counterexample :
    callsOf (notify [Tok.str ("\x7b\"type\":"), Tok.str ("\"undo\"\x7d")] sampleHost) = []
      ∧ writesOf (notify [Tok.str ("\x7b\"type\":"), Tok.str ("\"undo\"\x7d")] sampleHost) = []
      ∧ boxesOf (notify [Tok.str ("\x7b\"type\":"), Tok.str ("\"undo\"\x7d")] sampleHost)
          = ["Unknown command: \x27\x7b\"type\":\x27"] := by
  decide

/-- Claim C6 (amended): the interpreter accepts only the legacy
whitespace-delimited encoding.  Any command whose first whitespace token starts
with an opening brace — in particular every JSON object literal — reaches the
unknown-command branch: it is never parsed as JSON, no operation field is
validated, and no handler is invoked. -/
theorem C6_legacy_only (h : Host) (t : Tok) (rest : List Tok)
    (hst : (tokStr t).data.head? = some ('\x7b')) :
    notify (t :: rest) h = [Effect.log ("Executing: " ++ wireStr (t :: rest)),
        Effect.box ("Unknown command: \x27" ++ tokStr t ++ "\x27")]
      ∧ callsOf (notify (t :: rest) h) = [] := by
  have hk : tokStr t ∉ knownOps := by
    intro hmem
    simp only [knownOps, List.mem_cons, List.not_mem_nil, or_false] at hmem
    rcases hmem with h1 | h1 | h1 | h1 | h1 | h1 | h1 | h1 | h1 | h1 | h1 | h1 | h1 |
        h1 | h1 | h1 | h1 <;>
      rw [h1] at hst <;> exact absurd hst (by decide)
  have hbody : notify (t :: rest) h
      = Effect.log ("Executing: " ++ wireStr (t :: rest))
        :: dispatch (tokStr t) (t :: rest) h := rfl
  rw [hbody, dispatch_unknown (tokStr t) (t :: rest) h hk]
  exact ⟨rfl, by simp⟩

/-- Claim C6, witness: the JSON encoding of `select_body`. -/
theorem C6_witness :
    notify [Tok.str ("\x7b\"type\":"), Tok.str ("\"select_body\"\x7d")] failingHost
        = [Effect.log ("Executing: "
             ++ wireStr [Tok.str ("\x7b\"type\":"), Tok.str ("\"select_body\"\x7d")]),
           Effect.box ("Unknown command: \x27\x7b\"type\":\x27")]
      ∧ callsOf (notify [Tok.str ("\x7b\"type\":"), Tok.str ("\"select_body\"\x7d")]
          failingHost) = [] :=
  C6_legacy_only failingHost (Tok.str ("\x7b\"type\":")) [Tok.str ("\"select_body\"\x7d")]
    (by decide)

/-- Claim C3 (confirmed): (1) when the mailbox writes land only after the
30-second wait has expired, the listener replies with the synthesized
`timeout` status over HTTP 200 AND the in-flight host execution is not
cancelled — its writes still land in the (abandoned) mailbox; (2) a request
whose command produces no write in time also gets the `timeout` reply;
(3) because the listener resets `_last_response` and `_response_ready` for
each request, the outcome of a `/command` request is independent of whatever
the mailbox held before; (4) hence a later unrelated request after a timed-out
one completes normally with its own response — the mailbox is not permanently
poisoned. -/
theorem C3_timeout_and_recovery :
    (∀ (m : Mailbox) (cmd : List Tok) (h : Host),
        (do_POST ("/command") m (ReqBody.ok cmd) h Sched.after).1
            = Reply.json 200 ("timeout") (some ("Command execution timeout"))
          ∧ (do_POST ("/command") m (ReqBody.ok cmd) h Sched.after).2
              = applyEffects clearedMailbox (notify cmd h))
      ∧ (∀ (m : Mailbox) (cmd : List Tok) (h : Host),
          (applyEffects clearedMailbox (notify cmd h)).ready = false →
          (do_POST ("/command") m (ReqBody.ok cmd) h Sched.before).1
            = Reply.json 200 ("timeout") (some ("Command execution timeout")))
      ∧ (∀ (m₁ m₂ : Mailbox) (cmd : List Tok) (h : Host) (sched : Sched),
          do_POST ("/command") m₁ (ReqBody.ok cmd) h sched
            = do_POST ("/command") m₂ (ReqBody.ok cmd) h sched)
      ∧ (∀ (m : Mailbox) (c₁ c₂ : List Tok) (h₁ h₂ : Host),
          (applyEffects clearedMailbox (notify c₂ h₂)).ready = true →
          (do_POST ("/command") (do_POST ("/command") m (ReqBody.ok c₁) h₁ Sched.after).2
              (ReqBody.ok c₂) h₂ Sched.before).1
            = Reply.json 200 ("success")
                ((applyEffects clearedMailbox (notify c₂ h₂)).last)) := by
  refine ⟨?_, ?_, ?_, ?_⟩
  · intro m cmd h
    exact ⟨rfl, rfl⟩
  · intro m cmd h hready
    simp [do_POST, hready]
  · intro m₁ m₂ cmd h sched
    cases sched <;> rfl
  · intro m c₁ c₂ h₁ h₂ hready
    simp [do_POST, hready]

/-- Claim C3, witness: a stale, flagged mailbox plus an unknown (hence
write-less) command still yields the `timeout` reply; and after an abandoned
`undo` request, a fresh `redo` request returns its own success response. -/
theorem C3_witness :
    ((applyEffects clearedMailbox (notify [Tok.str ("frobnicate")] sampleHost)).ready = false
      ∧ (do_POST ("/command") { last := some ("stale"), ready := true }
          (ReqBody.ok [Tok.str ("frobnicate")]) sampleHost Sched.before).1
            = Reply.json 200 ("timeout") (some ("Command execution timeout")))
    ∧ ((applyEffects clearedMailbox (notify [Tok.str ("redo")] sampleHost)).ready = true
      ∧ (do_POST ("/command")
            (do_POST ("/command") { last := some ("stale"), ready := true }
              (ReqBody.ok [Tok.str ("undo")]) sampleHost Sched.after).2
            (ReqBody.ok [Tok.str ("redo")]) sampleHost Sched.before).1
          = Reply.json 200 ("success")
              ((applyEffects clearedMailbox (notify [Tok.str ("redo")] sampleHost)).last)) :=
  ⟨⟨by decide,
    C3_timeout_and_recovery.2.1 { last := some ("stale"), ready := true }
      [Tok.str ("frobnicate")] sampleHost (by decide)⟩,
   ⟨by decide,
    C3_timeout_and_recovery.2.2.2 { last := some ("stale"), ready := true }
      [Tok.str ("undo")] [Tok.str ("redo")] sampleHost sampleHost (by decide)⟩⟩

/-- Claim C4, counterexample: `undo` with a raising host API writes the
`FAILED: undo - ...` response, and the HTTP reply carries status `success` —
not `error` — for this failed handler. -/
theorem C4_counterexample :
    (do_POST ("/command") clearedMailbox (ReqBody.ok [Tok.str ("undo")]) failingHost
        Sched.before).1
      = Reply.json 200 ("success")
          (some ("FAILED: undo - Traceback (most recent call last): ...")) := by
  decide

/-- Claim C4 (amended): the HTTP reply's status field is `success` whenever ANY
response was written within the timeout — including a handler failure, whose
FAILED text travels inside the message — `timeout` when none was written in
time, and `error` (HTTP 500) only for a transport-level exception while
decoding the request; handler failure is therefore not distinguished from
success in the status field. -/
theorem C4_transport_status :
    (∀ (m : Mailbox) (cmd : List Tok) (h : Host),
        (applyEffects clearedMailbox (notify cmd h)).ready = true →
        (do_POST ("/command") m (ReqBody.ok cmd) h Sched.before).1
          = Reply.json 200 ("success") ((applyEffects clearedMailbox (notify cmd h)).last))
      ∧ (∀ (m : Mailbox) (cmd : List Tok) (h : Host),
          (applyEffects clearedMailbox (notify cmd h)).ready = false →
          (do_POST ("/command") m (ReqBody.ok cmd) h Sched.before).1
            = Reply.json 200 ("timeout") (some ("Command execution timeout")))
      ∧ (∀ (m : Mailbox) (h : Host) (exc : String) (sched : Sched),
          do_POST ("/command") m (ReqBody.malformed exc) h sched
            = (Reply.json 500 ("error") (some exc), m))
      ∧ (∀ (m : Mailbox) (h : Host), h.undoCmd = true → h.apiFails = true →
          (do_POST ("/command") m (ReqBody.ok [Tok.str ("undo")]) h Sched.before).1
            = Reply.json 200 ("success") (some ("FAILED: undo - " ++ h.exc))) := by
  refine ⟨?_, ?_, ?_, ?_⟩
  · intro m cmd h hready
    simp [do_POST, hready]
  · intro m cmd h hready
    simp [do_POST, hready]
  · intro m h exc sched
    rfl
  · intro m h hu ha
    have hnote : notify [Tok.str ("undo")] h
        = Effect.log ("Executing: " ++ wireStr [Tok.str ("undo")])
          :: Effect.call ("undo") :: perform_undo h := rfl
    have hperform : perform_undo h
        = [Effect.write ("FAILED: undo - " ++ h.exc),
           Effect.box ("Undo operation failed:\n" ++ h.exc)] := by
      unfold perform_undo
      rw [if_pos, if_pos] <;> simp [hu, ha]
    simp [do_POST, hnote, hperform, applyEffects, write_response, clearedMailbox]

/-- Claim C4, witness: concrete instances of the success-despite-failure, the
timeout, and the handler-failure conjuncts. -/
theorem C4_witness :
    ((applyEffects clearedMailbox (notify [Tok.str ("undo")] sampleHost)).ready = true
      ∧ (do_POST ("/command") clearedMailbox (ReqBody.ok [Tok.str ("undo")]) sampleHost
            Sched.before).1
          = Reply.json 200 ("success")
              ((applyEffects clearedMailbox (notify [Tok.str ("undo")] sampleHost)).last))
    ∧ ((applyEffects clearedMailbox (notify [Tok.str ("mystery")] sampleHost)).ready = false
      ∧ (do_POST ("/command") clearedMailbox (ReqBody.ok [Tok.str ("mystery")]) sampleHost
            Sched.before).1
          = Reply.json 200 ("timeout") (some ("Command execution timeout")))
    ∧ (do_POST ("/command") { last := none, ready := false }
          (ReqBody.ok [Tok.str ("undo")]) failingHost Sched.before).1
        = Reply.json 200 ("success") (some ("FAILED: undo - " ++ failingHost.exc)) :=
  ⟨⟨by decide,
    C4_transport_status.1 clearedMailbox [Tok.str ("undo")] sampleHost (by decide)⟩,
   ⟨by decide,
    C4_transport_status.2.1 clearedMailbox [Tok.str ("mystery")] sampleHost (by decide)⟩,
   C4_transport_status.2.2.2 { last := none, ready := false } failingHost rfl rfl⟩

/-- A tool name outside the catalog makes `build_command` raise the local
`Unknown tool` error. -/
theorem build_command_unknown (name : String) (args : Args)
    (hk : name ∉ knownOps) :
    build_command name args = Except.error ("Unknown tool: " ++ name) := by
  simp only [knownOps, List.mem_cons, List.not_mem_nil, or_false] at hk
  push_neg at hk
  obtain ⟨h1, h2, h3, h4, h5, h6, h7, h8, h9, h10, h11, h12, h13, h14, h15, h16, h17⟩ := hk
  delta build_command
  rw [if_neg h1, if_neg h2, if_neg h3, if_neg h4, if_neg h5, if_neg h6, if_neg h7,
    if_neg h14, if_neg h11, if_neg h9, if_neg h8, if_neg h13, if_neg h17, if_neg h10,
    if_neg h12, if_neg h15, if_neg h16]

/-- Claim C7, counterexample: `build_command` performs no schema validation —
a `create_cube` call with NO arguments at all (the required `size` missing)
builds a wire command from defaults instead of raising, and a string supplied
for the numeric `size` is interpolated untouched. -/
theorem C7_counterexample :
    build_command ("create_cube") []
        = Except.ok [Tok.str ("create_cube"), Tok.num 10, Tok.str ("none"),
            Tok.str ("xy"), Tok.num 0, Tok.num 0, Tok.num 0]
      ∧ build_command ("create_cube") [("size", Val.str ("huge"))]
          = Except.ok [Tok.str ("create_cube"), Tok.str ("huge"), Tok.str ("none"),
              Tok.str ("xy"), Tok.num 0, Tok.num 0, Tok.num 0] :=
  ⟨rfl, rfl⟩

/-- Claim C7 (amended): the encoder does NOT validate argument presence or
types — every catalog tool name builds a wire command from whatever arguments
are present, substituting per-argument defaults for missing ones; only an
unknown tool name raises, locally, and `call_tool` maps that to an
`Error: ...` text result without ever invoking the transport. -/
theorem C7_encoder_behavior :
    (∀ (name : String) (args : Args), name ∈ knownOps →
        ∃ w, build_command name args = Except.ok w)
      ∧ (∀ (name : String) (args : Args), name ∉ knownOps →
          build_command name args = Except.error ("Unknown tool: " ++ name))
      ∧ (∀ (name : String) (args : Args) (t₁ t₂ : List Tok → String),
          name ∉ knownOps →
          call_tool name args t₁ = "Error: " ++ ("Unknown tool: " ++ name)
            ∧ call_tool name args t₁ = call_tool name args t₂) := by
  refine ⟨?_, ?_, ?_⟩
  · intro name args hk
    simp only [knownOps, List.mem_cons, List.not_mem_nil, or_false] at hk
    rcases hk with h1 | h1 | h1 | h1 | h1 | h1 | h1 | h1 | h1 | h1 | h1 | h1 | h1 |
        h1 | h1 | h1 | h1 <;> subst h1 <;> exact ⟨_, rfl⟩
  · intro name args hk
    exact build_command_unknown name args hk
  · intro name args t₁ t₂ hk
    have hb := build_command_unknown name args hk
    constructor <;> simp [call_tool, hb]

/-- Claim C7, witness: `undo` with arguments it does not even take still
builds, and the unknown tool `execute_arbitrary_code` errors locally whatever
the transport would do. -/
theorem C7_witness :
    (∃ w, build_command ("undo") [("x", Val.num 1)] = Except.ok w)
      ∧ build_command ("execute_arbitrary_code") []
          = Except.error ("Unknown tool: execute_arbitrary_code")
      ∧ (call_tool ("execute_arbitrary_code") [] (fun w => "sent: " ++ wireStr w)
            = "Error: " ++ ("Unknown tool: execute_arbitrary_code")
          ∧ call_tool ("execute_arbitrary_code") [] (fun w => "sent: " ++ wireStr w)
              = call_tool ("execute_arbitrary_code") [] (fun w => "other")) :=
  ⟨C7_encoder_behavior.1 ("undo") [("x", Val.num 1)] (by decide),
   C7_encoder_behavior.2.1 ("execute_arbitrary_code") [] (by decide),
   C7_encoder_behavior.2.2 ("execute_arbitrary_code") [] (fun w => "sent: " ++ wireStr w)
     (fun w => "other") (by decide)⟩

/-- Claim C8, counterexample: none of the three additional tools the claim
names exists in the catalog. -/
theorem C8_counterexample :
    ("execute_arbitrary_code") ∉ list_tools.map Tool.name
      ∧ ("get_api_info") ∉ list_tools.map Tool.name
      ∧ ("get_state") ∉ list_tools.map Tool.name := by
  decide

/-- Claim C8 (amended): the catalog holds exactly one entry per operation of
the command grammar — the 17 interpreter operations, no duplicates, nothing
else — and every entry's required-argument list only names declared schema
properties; there are no `execute_arbitrary_code`, `get_api_info` or
`get_state` tools. -/
theorem C8_catalog_matches_grammar :
    (list_tools.map Tool.name).Nodup
      ∧ (∀ s ∈ list_tools.map Tool.name, s ∈ knownOps)
      ∧ (∀ s ∈ knownOps, s ∈ list_tools.map Tool.name)
      ∧ (∀ t ∈ list_tools, ∀ r ∈ t.inputSchema.required,
          r ∈ t.inputSchema.properties.map Prod.fst) := by
  refine ⟨by decide, by decide, by decide, by decide⟩

/-- Claim C9, counterexample: neither the listener host nor the port nor
either timeout can be changed by any environment — each is the same fixed
constant under every environment, so they are not "overridable via
environment variables". -/
theorem C9_counterexample :
    ¬ Overridable HTTP_HOST ∧ ¬ Overridable HTTP_PORT
      ∧ ¬ Overridable response_wait_timeout ∧ ¬ Overridable send_timeout_default := by
  refine ⟨?_, ?_, ?_, ?_⟩ <;> rintro ⟨e₁, e₂, hne⟩ <;> exact hne rfl

/-- Claim C9 (amended): only the two file-transport paths are overridable via
environment variables (`FUSION_COMMAND_FILE`, `FUSION_RESPONSE_FILE`, each with
a fixed default); the HTTP listener host and port and both timeouts are
hard-coded constants that no environment changes. -/
theorem C9_env_configuration :
    Overridable COMMAND_FILE_PATH ∧ Overridable RESPONSE_FILE_PATH
      ∧ (∀ env : EnvMap, HTTP_HOST env = "127.0.0.1")
      ∧ (∀ env : EnvMap, HTTP_PORT env = 8080)
      ∧ (∀ env : EnvMap, response_wait_timeout env = 30)
      ∧ (∀ env : EnvMap, send_timeout_default env = 10) := by
  refine ⟨⟨fun _ => none, fun _ => some ("elsewhere"), by decide⟩,
    ⟨fun _ => none, fun _ => some ("elsewhere"), by decide⟩,
    fun env => rfl, fun env => rfl, fun env => rfl, fun env => rfl⟩

theorem calls_undo_nil (h : Host) : callsOf (perform_undo h) = [] := by
  simp only [perform_undo]
  repeat' split
  all_goals simp

theorem calls_redo_nil (h : Host) : callsOf (perform_redo h) = [] := by
  simp only [perform_redo]
  repeat' split
  all_goals simp

/-- Claim C5, counterexample: the angle of `rotate_selection` is a numeric
argument that is NOT divided by 10 at the decode boundary — encoding angle 90
decodes to angle 90 (while the centre coordinate 10 does become 1), so the
documented fixed divide-by-10 scale is not applied to every numeric
argument. -/
theorem C5_counterexample :
    build_command ("rotate_selection")
        [("axis", Val.str ("z")), ("angle", Val.num 90), ("cx", Val.num 10),
         ("cy", Val.num 0), ("cz", Val.num 0)]
        = Except.ok [Tok.str ("rotate_selection"), Tok.str ("z"), Tok.num 90,
            Tok.num 10, Tok.num 0, Tok.num 0]
      ∧ decode_rotate_selection [Tok.str ("rotate_selection"), Tok.str ("z"),
            Tok.num 90, Tok.num 10, Tok.num 0, Tok.num 0]
          = some { axis := "z", angle := 90, cx := 1, cy := 0, cz := 0 }
      ∧ (90 : ℚ) ≠ 90 / 10 :=
  ⟨rfl,
   by
    simp [decode_rotate_selection, reqStrAt, reqFloatRawAt, reqFloatAt, tokStr, tokFloat],
   by norm_num⟩

/-- Claim C5 (amended): for every catalog tool call whose string arguments are
nonempty, space-free and (for body names) not one of the reserved name tokens,
encoding with `build_command` and decoding on the interpreter side yields the
same operation and the same argument values with the fixed divide-by-10 scale
applied to every numeric argument EXCEPT the rotation angle, which is passed
through unscaled; a caller-supplied body name whose lowercase form is reserved
is decoded as an absent name (see C10). -/
theorem C5_roundtrip :
    (∀ (size cx cy cz : ℚ) (nm pl : String),
        wireSafe nm = true → wireSafe pl = true → pyLower nm ∉ reservedNames →
        build_command ("create_cube")
            [("size", Val.num size), ("name", Val.str nm), ("plane", Val.str pl),
             ("cx", Val.num cx), ("cy", Val.num cy), ("cz", Val.num cz)]
            = Except.ok [Tok.str ("create_cube"), Tok.num size, Tok.str nm,
                Tok.str pl, Tok.num cx, Tok.num cy, Tok.num cz]
          ∧ decode_create_cube [Tok.str ("create_cube"), Tok.num size, Tok.str nm,
                Tok.str pl, Tok.num cx, Tok.num cy, Tok.num cz]
              = some { p1 := size / 10, body_name := some nm, plane_str := pl,
                       cx := cx / 10, cy := cy / 10, cz := cz / 10 })
      ∧ (∀ (radius height cx cy cz : ℚ) (nm pl : String),
          wireSafe nm = true → wireSafe pl = true → pyLower nm ∉ reservedNames →
          build_command ("create_cylinder")
              [("radius", Val.num radius), ("height", Val.num height),
               ("name", Val.str nm), ("plane", Val.str pl), ("cx", Val.num cx),
               ("cy", Val.num cy), ("cz", Val.num cz)]
              = Except.ok [Tok.str ("create_cylinder"), Tok.num radius,
                  Tok.num height, Tok.str nm, Tok.str pl, Tok.num cx, Tok.num cy,
                  Tok.num cz]
            ∧ decode_create_cylinder [Tok.str ("create_cylinder"), Tok.num radius,
                  Tok.num height, Tok.str nm, Tok.str pl, Tok.num cx, Tok.num cy,
                  Tok.num cz]
                = some { p1 := radius / 10, p2 := height / 10, body_name := some nm,
                         plane_str := pl, cx := cx / 10, cy := cy / 10, cz := cz / 10 })
      ∧ (∀ (width depth height cx cy cz : ℚ) (nm pl : String),
          wireSafe nm = true → wireSafe pl = true → pyLower nm ∉ reservedNames →
          build_command ("create_box")
              [("width", Val.num width), ("depth", Val.num depth),
               ("height", Val.num height), ("name", Val.str nm),
               ("plane", Val.str pl), ("cx", Val.num cx), ("cy", Val.num cy),
               ("cz", Val.num cz)]
              = Except.ok [Tok.str ("create_box"), Tok.num width, Tok.num depth,
                  Tok.num height, Tok.str nm, Tok.str pl, Tok.num cx, Tok.num cy,
                  Tok.num cz]
            ∧ decode_create_box [Tok.str ("create_box"), Tok.num width,
                  Tok.num depth, Tok.num height, Tok.str nm, Tok.str pl, Tok.num cx,
                  Tok.num cy, Tok.num cz]
                = some { p1 := width / 10, p2 := depth / 10, p3 := height / 10,
                         body_name := some nm, plane_str := pl, cx := cx / 10,
                         cy := cy / 10, cz := cz / 10 })
      ∧ (∀ (radius cx cy cz : ℚ) (nm pl : String),
          wireSafe nm = true → wireSafe pl = true → pyLower nm ∉ reservedNames →
          build_command ("create_sphere")
              [("radius", Val.num radius), ("name", Val.str nm),
               ("plane", Val.str pl), ("cx", Val.num cx), ("cy", Val.num cy),
               ("cz", Val.num cz)]
              = Except.ok [Tok.str ("create_sphere"), Tok.num radius, Tok.str nm,
                  Tok.str pl, Tok.num cx, Tok.num cy, Tok.num cz]
            ∧ decode_create_sphere [Tok.str ("create_sphere"), Tok.num radius,
                  Tok.str nm, Tok.str pl, Tok.num cx, Tok.num cy, Tok.num cz]
                = some { p1 := radius / 10, body_name := some nm, plane_str := pl,
                         cx := cx / 10, cy := cy / 10, cz := cz / 10 })
      ∧ (∀ (radius height cx cy cz : ℚ) (nm pl : String),
          wireSafe nm = true → wireSafe pl = true → pyLower nm ∉ reservedNames →
          build_command ("create_cone")
              [("radius", Val.num radius), ("height", Val.num height),
               ("name", Val.str nm), ("plane", Val.str pl), ("cx", Val.num cx),
               ("cy", Val.num cy), ("cz", Val.num cz)]
              = Except.ok [Tok.str ("create_cone"), Tok.num radius, Tok.num height,
                  Tok.str nm, Tok.str pl, Tok.num cx, Tok.num cy, Tok.num cz]
            ∧ decode_create_cone [Tok.str ("create_cone"), Tok.num radius,
                  Tok.num height, Tok.str nm, Tok.str pl, Tok.num cx, Tok.num cy,
                  Tok.num cz]
                = some { p1 := radius / 10, p2 := height / 10, body_name := some nm,
                         plane_str := pl, cx := cx / 10, cy := cy / 10, cz := cz / 10 })
      ∧ (∀ (side height cx cy cz : ℚ) (nm pl : String),
          wireSafe nm = true → wireSafe pl = true → pyLower nm ∉ reservedNames →
          build_command ("create_sq_pyramid")
              [("side_length", Val.num side), ("height", Val.num height),
               ("name", Val.str nm), ("plane", Val.str pl), ("cx", Val.num cx),
               ("cy", Val.num cy), ("cz", Val.num cz)]
              = Except.ok [Tok.str ("create_sq_pyramid"), Tok.num side,
                  Tok.num height, Tok.str nm, Tok.str pl, Tok.num cx, Tok.num cy,
                  Tok.num cz]
            ∧ decode_create_sq_pyramid [Tok.str ("create_sq_pyramid"), Tok.num side,
                  Tok.num height, Tok.str nm, Tok.str pl, Tok.num cx, Tok.num cy,
                  Tok.num cz]
                = some { p1 := side / 10, p2 := height / 10, body_name := some nm,
                         plane_str := pl, cx := cx / 10, cy := cy / 10, cz := cz / 10 })
      ∧ (∀ (side height cx cy cz : ℚ) (nm pl : String),
          wireSafe nm = true → wireSafe pl = true → pyLower nm ∉ reservedNames →
          build_command ("create_tri_pyramid")
              [("side_length", Val.num side), ("height", Val.num height),
               ("name", Val.str nm), ("plane", Val.str pl), ("cx", Val.num cx),
               ("cy", Val.num cy), ("cz", Val.num cz)]
              = Except.ok [Tok.str ("create_tri_pyramid"), Tok.num side,
                  Tok.num height, Tok.str nm, Tok.str pl, Tok.num cx, Tok.num cy,
                  Tok.num cz]
            ∧ decode_create_tri_pyramid [Tok.str ("create_tri_pyramid"), Tok.num side,
                  Tok.num height, Tok.str nm, Tok.str pl, Tok.num cx, Tok.num cy,
                  Tok.num cz]
                = some { p1 := side / 10, p2 := height / 10, body_name := some nm,
                         plane_str := pl, cx := cx / 10, cy := cy / 10, cz := cz / 10 })
      ∧ (∀ bn : String, wireSafe bn = true →
          build_command ("select_body") [("body_name", Val.str bn)]
              = Except.ok [Tok.str ("select_body"), Tok.str bn]
            ∧ decode_select_body [Tok.str ("select_body"), Tok.str bn] = some bn)
      ∧ (∀ bn1 bn2 : String, wireSafe bn1 = true → wireSafe bn2 = true →
          build_command ("select_bodies")
              [("body_name1", Val.str bn1), ("body_name2", Val.str bn2)]
              = Except.ok [Tok.str ("select_bodies"), Tok.str bn1, Tok.str bn2]
            ∧ decode_select_bodies [Tok.str ("select_bodies"), Tok.str bn1,
                Tok.str bn2] = some (bn1, bn2))
      ∧ (∀ bn et : String, wireSafe bn = true → wireSafe et = true →
          build_command ("select_edges")
              [("body_name", Val.str bn), ("edge_type", Val.str et)]
              = Except.ok [Tok.str ("select_edges"), Tok.str bn, Tok.str et]
            ∧ decode_select_edges [Tok.str ("select_edges"), Tok.str bn, Tok.str et]
                = some (bn, et))
      ∧ (∀ radius : ℚ,
          build_command ("add_fillet") [("radius", Val.num radius)]
              = Except.ok [Tok.str ("add_fillet"), Tok.num radius]
            ∧ decode_add_fillet [Tok.str ("add_fillet"), Tok.num radius]
                = some (radius / 10))
      ∧ (∀ x y z : ℚ,
          build_command ("move_selection")
              [("x_dist", Val.num x), ("y_dist", Val.num y), ("z_dist", Val.num z)]
              = Except.ok [Tok.str ("move_selection"), Tok.num x, Tok.num y, Tok.num z]
            ∧ decode_move_selection [Tok.str ("move_selection"), Tok.num x, Tok.num y,
                Tok.num z] = some (x / 10, y / 10, z / 10))
      ∧ (∀ (axis : String) (angle cx cy cz : ℚ), wireSafe axis = true →
          build_command ("rotate_selection")
              [("axis", Val.str axis), ("angle", Val.num angle), ("cx", Val.num cx),
               ("cy", Val.num cy), ("cz", Val.num cz)]
              = Except.ok [Tok.str ("rotate_selection"), Tok.str axis, Tok.num angle,
                  Tok.num cx, Tok.num cy, Tok.num cz]
            ∧ decode_rotate_selection [Tok.str ("rotate_selection"), Tok.str axis,
                  Tok.num angle, Tok.num cx, Tok.num cy, Tok.num cz]
                = some { axis := axis, angle := angle, cx := cx / 10, cy := cy / 10,
                         cz := cz / 10 })
      ∧ (∀ op : String, wireSafe op = true →
          build_command ("combine_selection") [("operation", Val.str op)]
              = Except.ok [Tok.str ("combine_selection"), Tok.str op]
            ∧ decode_combine_selection [Tok.str ("combine_selection"), Tok.str op]
                = some op)
      ∧ (∀ target tool op : String,
          wireSafe target = true → wireSafe tool = true → wireSafe op = true →
          build_command ("combine_by_name")
              [("target_body", Val.str target), ("tool_body", Val.str tool),
               ("operation", Val.str op)]
              = Except.ok [Tok.str ("combine_by_name"), Tok.str target, Tok.str tool,
                  Tok.str op]
            ∧ decode_combine_by_name [Tok.str ("combine_by_name"), Tok.str target,
                  Tok.str tool, Tok.str op] = some (target, tool, op))
      ∧ (∀ (args : Args) (h : Host),
          build_command ("undo") args = Except.ok [Tok.str ("undo")]
            ∧ callsOf (notify [Tok.str ("undo")] h) = ["undo"])
      ∧ (∀ (args : Args) (h : Host),
          build_command ("redo") args = Except.ok [Tok.str ("redo")]
            ∧ callsOf (notify [Tok.str ("redo")] h) = ["redo"]) := by
  refine ⟨?_, ?_, ?_, ?_, ?_, ?_, ?_, ?_, ?_, ?_, ?_, ?_, ?_, ?_, ?_, ?_, ?_⟩
  · intro size cx cy cz nm pl hs1 hs2 hres
    exact ⟨rfl, by simp [decode_create_cube, reqFloatAt, optFloatAt, bodyNameAt,
      planeStrAt, tokStr, tokFloat, hres]⟩
  · intro radius height cx cy cz nm pl hs1 hs2 hres
    exact ⟨rfl, by simp [decode_create_cylinder, reqFloatAt, optFloatAt, bodyNameAt,
      planeStrAt, tokStr, tokFloat, hres]⟩
  · intro width depth height cx cy cz nm pl hs1 hs2 hres
    exact ⟨rfl, by simp [decode_create_box, reqFloatAt, optFloatAt, bodyNameAt,
      planeStrAt, tokStr, tokFloat, hres]⟩
  · intro radius cx cy cz nm pl hs1 hs2 hres
    exact ⟨rfl, by simp [decode_create_sphere, reqFloatAt, optFloatAt, bodyNameAt,
      planeStrAt, tokStr, tokFloat, hres]⟩
  · intro radius height cx cy cz nm pl hs1 hs2 hres
    exact ⟨rfl, by simp [decode_create_cone, reqFloatAt, optFloatAt, bodyNameAt,
      planeStrAt, tokStr, tokFloat, hres]⟩
  · intro side height cx cy cz nm pl hs1 hs2 hres
    exact ⟨rfl, by simp [decode_create_sq_pyramid, reqFloatAt, optFloatAt, bodyNameAt,
      planeStrAt, tokStr, tokFloat, hres]⟩
  · intro side height cx cy cz nm pl hs1 hs2 hres
    exact ⟨rfl, by simp [decode_create_tri_pyramid, reqFloatAt, optFloatAt, bodyNameAt,
      planeStrAt, tokStr, tokFloat, hres]⟩
  · intro bn hs
    exact ⟨rfl, rfl⟩
  · intro bn1 bn2 hs1 hs2
    exact ⟨rfl, rfl⟩
  · intro bn et hs1 hs2
    exact ⟨rfl, rfl⟩
  · intro radius
    exact ⟨rfl, rfl⟩
  · intro x y z
    exact ⟨rfl, rfl⟩
  · intro axis angle cx cy cz hs
    exact ⟨rfl, rfl⟩
  · intro op hs
    exact ⟨rfl, rfl⟩
  · intro target tool op hs1 hs2 hs3
    exact ⟨rfl, rfl⟩
  · intro args h
    refine ⟨rfl, ?_⟩
    have hb : notify [Tok.str ("undo")] h
        = Effect.log ("Executing: " ++ wireStr [Tok.str ("undo")])
          :: Effect.call ("undo") :: perform_undo h := rfl
    rw [hb, callsOf_cons_log, callsOf_cons_call, calls_undo_nil]
  · intro args h
    refine ⟨rfl, ?_⟩
    have hb : notify [Tok.str ("redo")] h
        = Effect.log ("Executing: " ++ wireStr [Tok.str ("redo")])
          :: Effect.call ("redo") :: perform_redo h := rfl
    rw [hb, callsOf_cons_log, callsOf_cons_call, calls_redo_nil]

/-- Claim C5, witness: a concrete `create_cube` call round-trips with the
scale applied, and a concrete `rotate_selection` call round-trips with its
angle unscaled. -/
theorem C5_witness :
    (build_command ("create_cube")
        [("size", Val.num 25), ("name", Val.str ("MyCube")), ("plane", Val.str ("yz")),
         ("cx", Val.num 5), ("cy", Val.num 0), ("cz", Val.num 0)]
        = Except.ok [Tok.str ("create_cube"), Tok.num 25, Tok.str ("MyCube"),
            Tok.str ("yz"), Tok.num 5, Tok.num 0, Tok.num 0]
      ∧ decode_create_cube [Tok.str ("create_cube"), Tok.num 25, Tok.str ("MyCube"),
            Tok.str ("yz"), Tok.num 5, Tok.num 0, Tok.num 0]
          = some { p1 := 25 / 10, body_name := some ("MyCube"), plane_str := "yz",
                   cx := 5 / 10, cy := 0 / 10, cz := 0 / 10 })
    ∧ (build_command ("rotate_selection")
        [("axis", Val.str ("y")), ("angle", Val.num 45), ("cx", Val.num 0),
         ("cy", Val.num 0), ("cz", Val.num 0)]
        = Except.ok [Tok.str ("rotate_selection"), Tok.str ("y"), Tok.num 45,
            Tok.num 0, Tok.num 0, Tok.num 0]
      ∧ decode_rotate_selection [Tok.str ("rotate_selection"), Tok.str ("y"),
            Tok.num 45, Tok.num 0, Tok.num 0, Tok.num 0]
          = some { axis := "y", angle := 45, cx := 0 / 10, cy := 0 / 10,
                   cz := 0 / 10 }) :=
  ⟨C5_roundtrip.1 25 5 0 0 ("MyCube") ("yz") (by decide) (by decide) (by decide),
   C5_roundtrip.2.2.2.2.2.2.2.2.2.2.2.2.1 ("y") 45 0 0 0 (by decide)⟩

/-- Claim C10 (confirmed): for every legacy shape-creation command, a name
token whose ASCII-lowercase form is one of the five reserved words
`xy`/`yz`/`xz`/`none`/`null` is decoded as an absent name — the handler
receives no body name, so the created body keeps the host's default name —
while the plane is still read from the following positional token; and the
bridge encoder emits the literal token `none` in the name position whenever
the caller supplies no `name` argument. -/
theorem C10_reserved_name_tokens :
    (∀ (size cx cy cz : ℚ) (nmTok plTok : Tok),
        pyLower (tokStr nmTok) ∈ reservedNames →
        decode_create_cube [Tok.str ("create_cube"), Tok.num size, nmTok, plTok,
            Tok.num cx, Tok.num cy, Tok.num cz]
          = some { p1 := size / 10, body_name := none, plane_str := tokStr plTok,
                   cx := cx / 10, cy := cy / 10, cz := cz / 10 })
      ∧ (∀ (radius height cx cy cz : ℚ) (nmTok plTok : Tok),
          pyLower (tokStr nmTok) ∈ reservedNames →
          decode_create_cylinder [Tok.str ("create_cylinder"), Tok.num radius,
              Tok.num height, nmTok, plTok, Tok.num cx, Tok.num cy, Tok.num cz]
            = some { p1 := radius / 10, p2 := height / 10, body_name := none,
                     plane_str := tokStr plTok, cx := cx / 10, cy := cy / 10,
                     cz := cz / 10 })
      ∧ (∀ (width depth height cx cy cz : ℚ) (nmTok plTok : Tok),
          pyLower (tokStr nmTok) ∈ reservedNames →
          decode_create_box [Tok.str ("create_box"), Tok.num width, Tok.num depth,
              Tok.num height, nmTok, plTok, Tok.num cx, Tok.num cy, Tok.num cz]
            = some { p1 := width / 10, p2 := depth / 10, p3 := height / 10,
                     body_name := none, plane_str := tokStr plTok, cx := cx / 10,
                     cy := cy / 10, cz := cz / 10 })
      ∧ (∀ (radius cx cy cz : ℚ) (nmTok plTok : Tok),
          pyLower (tokStr nmTok) ∈ reservedNames →
          decode_create_sphere [Tok.str ("create_sphere"), Tok.num radius, nmTok,
              plTok, Tok.num cx, Tok.num cy, Tok.num cz]
            = some { p1 := radius / 10, body_name := none, plane_str := tokStr plTok,
                     cx := cx / 10, cy := cy / 10, cz := cz / 10 })
      ∧ (∀ (radius height cx cy cz : ℚ) (nmTok plTok : Tok),
          pyLower (tokStr nmTok) ∈ reservedNames →
          decode_create_cone [Tok.str ("create_cone"), Tok.num radius, Tok.num height,
              nmTok, plTok, Tok.num cx, Tok.num cy, Tok.num cz]
            = some { p1 := radius / 10, p2 := height / 10, body_name := none,
                     plane_str := tokStr plTok, cx := cx / 10, cy := cy / 10,
                     cz := cz / 10 })
      ∧ (∀ (side height cx cy cz : ℚ) (nmTok plTok : Tok),
          pyLower (tokStr nmTok) ∈ reservedNames →
          decode_create_sq_pyramid [Tok.str ("create_sq_pyramid"), Tok.num side,
              Tok.num height, nmTok, plTok, Tok.num cx, Tok.num cy, Tok.num cz]
            = some { p1 := side / 10, p2 := height / 10, body_name := none,
                     plane_str := tokStr plTok, cx := cx / 10, cy := cy / 10,
                     cz := cz / 10 })
      ∧ (∀ (side height cx cy cz : ℚ) (nmTok plTok : Tok),
          pyLower (tokStr nmTok) ∈ reservedNames →
          decode_create_tri_pyramid [Tok.str ("create_tri_pyramid"), Tok.num side,
              Tok.num height, nmTok, plTok, Tok.num cx, Tok.num cy, Tok.num cz]
            = some { p1 := side / 10, p2 := height / 10, body_name := none,
                     plane_str := tokStr plTok, cx := cx / 10, cy := cy / 10,
                     cz := cz / 10 })
      ∧ (∀ size : ℚ,
          build_command ("create_cube") [("size", Val.num size)]
            = Except.ok [Tok.str ("create_cube"), Tok.num size, Tok.str ("none"),
                Tok.str ("xy"), Tok.num 0, Tok.num 0, Tok.num 0])
      ∧ (∀ (s : ℚ) (p : String) (cx cy cz : ℚ) (h : Host), h.apiFails = false →
          writesOf (create_cube s none p cx cy cz h)
            = ["SUCCESS: Cube \x27" ++ h.defaultName ++ "\x27 of size "
                ++ ratStr (s * 10) ++ "mm created!"])
      ∧ (∀ (r ht : ℚ) (p : String) (cx cy cz : ℚ) (h : Host), h.apiFails = false →
          writesOf (create_cylinder r ht none p cx cy cz h)
            = ["SUCCESS: Cylinder \x27" ++ h.defaultName ++ "\x27 (radius:"
                ++ ratStr (r * 10) ++ "mm, height:" ++ ratStr (ht * 10)
                ++ "mm) created!"])
      ∧ (∀ (w d ht : ℚ) (p : String) (cx cy cz : ℚ) (h : Host), h.apiFails = false →
          writesOf (create_box w d ht none p cx cy cz h)
            = ["SUCCESS: Box \x27" ++ h.defaultName ++ "\x27 (W:" ++ ratStr (w * 10)
                ++ ", D:" ++ ratStr (d * 10) ++ ", H:" ++ ratStr (ht * 10)
                ++ "mm) created!"])
      ∧ (∀ (r : ℚ) (p : String) (cx cy cz : ℚ) (h : Host), h.apiFails = false →
          writesOf (create_sphere r none p cx cy cz h)
            = ["SUCCESS: Sphere \x27" ++ h.defaultName ++ "\x27 (radius:"
                ++ ratStr (r * 10) ++ "mm) created!"])
      ∧ (∀ (r ht : ℚ) (p : String) (cx cy cz : ℚ) (h : Host), h.apiFails = false →
          writesOf (create_cone r ht none p cx cy cz h)
            = ["SUCCESS: Cone \x27" ++ h.defaultName ++ "\x27 (radius:"
                ++ ratStr (r * 10) ++ "mm, height:" ++ ratStr (ht * 10)
                ++ "mm) created!"])
      ∧ (∀ (s ht : ℚ) (p : String) (cx cy cz : ℚ) (h : Host), h.apiFails = false →
          writesOf (create_sq_pyramid s ht none p cx cy cz h)
            = ["SUCCESS: Square Pyramid \x27" ++ h.defaultName ++ "\x27 (base:"
                ++ ratStr (s * 10) ++ "mm, height:" ++ ratStr (ht * 10)
                ++ "mm) created!"])
      ∧ (∀ (s ht : ℚ) (p : String) (cx cy cz : ℚ) (h : Host), h.apiFails = false →
          writesOf (create_tri_pyramid s ht none p cx cy cz h)
            = ["SUCCESS: Triangular Pyramid \x27" ++ h.defaultName ++ "\x27 (base side:"
                ++ ratStr (s * 10) ++ "mm, height:" ++ ratStr (ht * 10)
                ++ "mm) created!"]) := by
  refine ⟨?_, ?_, ?_, ?_, ?_, ?_, ?_, ?_, ?_, ?_, ?_, ?_, ?_, ?_, ?_⟩
  · intro size cx cy cz nmTok plTok hres
    simp [decode_create_cube, reqFloatAt, optFloatAt, bodyNameAt, planeStrAt,
      tokFloat, hres]
  · intro radius height cx cy cz nmTok plTok hres
    simp [decode_create_cylinder, reqFloatAt, optFloatAt, bodyNameAt, planeStrAt,
      tokFloat, hres]
  · intro width depth height cx cy cz nmTok plTok hres
    simp [decode_create_box, reqFloatAt, optFloatAt, bodyNameAt, planeStrAt,
      tokFloat, hres]
  · intro radius cx cy cz nmTok plTok hres
    simp [decode_create_sphere, reqFloatAt, optFloatAt, bodyNameAt, planeStrAt,
      tokFloat, hres]
  · intro radius height cx cy cz nmTok plTok hres
    simp [decode_create_cone, reqFloatAt, optFloatAt, bodyNameAt, planeStrAt,
      tokFloat, hres]
  · intro side height cx cy cz nmTok plTok hres
    simp [decode_create_sq_pyramid, reqFloatAt, optFloatAt, bodyNameAt, planeStrAt,
      tokFloat, hres]
  · intro side height cx cy cz nmTok plTok hres
    simp [decode_create_tri_pyramid, reqFloatAt, optFloatAt, bodyNameAt, planeStrAt,
      tokFloat, hres]
  · intro size
    rfl
  · intro s p cx cy cz h hapi
    simp [create_cube, hapi]
  · intro r ht p cx cy cz h hapi
    simp [create_cylinder, hapi]
  · intro w d ht p cx cy cz h hapi
    simp [create_box, hapi]
  · intro r p cx cy cz h hapi
    simp [create_sphere, hapi]
  · intro r ht p cx cy cz h hapi
    simp [create_cone, hapi]
  · intro s ht p cx cy cz h hapi
    simp [create_sq_pyramid, hapi]
  · intro s ht p cx cy cz h hapi
    simp [create_tri_pyramid, hapi]

/-- Claim C10, witness: the user-chosen name `None` (lowercase `none`) is
silently dropped by the cube decoder — the plane is still taken from the next
token — and the no-name cube handler reports the host default name. -/
theorem C10_witness :
    (pyLower (tokStr (Tok.str ("None"))) ∈ reservedNames
      ∧ decode_create_cube [Tok.str ("create_cube"), Tok.num 30, Tok.str ("None"),
            Tok.str ("xz"), Tok.num 1, Tok.num 2, Tok.num 3]
          = some { p1 := 30 / 10, body_name := none, plane_str := tokStr (Tok.str ("xz")),
                   cx := 1 / 10, cy := 2 / 10, cz := 3 / 10 })
    ∧ writesOf (create_cube 3 none ("xz") (1/10) (2/10) (3/10) sampleHost)
        = ["SUCCESS: Cube \x27" ++ sampleHost.defaultName ++ "\x27 of size "
            ++ ratStr (3 * 10) ++ "mm created!"] :=
  ⟨⟨by decide,
    C10_reserved_name_tokens.1 30 1 2 3 (Tok.str ("None")) (Tok.str ("xz")) (by decide)⟩,
   C10_reserved_name_tokens.2.2.2.2.2.2.2.2.1 3 ("xz") (1/10) (2/10) (3/10) sampleHost rfl⟩

/-- Claim C8, witness: concrete instances of the catalog membership and
schema-wellformedness conjuncts. -/
theorem C8_witness :
    ("create_cube") ∈ knownOps
      ∧ ("rotate_selection") ∈ list_tools.map Tool.name
      ∧ ("body_name") ∈ ((⟨"select_body", ⟨[("body_name", "string")], ["body_name"]⟩⟩ :
          Tool).inputSchema.properties.map Prod.fst) :=
  ⟨C8_catalog_matches_grammar.2.1 ("create_cube") (by decide),
   C8_catalog_matches_grammar.2.2.1 ("rotate_selection") (by decide),
   C8_catalog_matches_grammar.2.2.2
     ⟨"select_body", ⟨[("body_name", "string")], ["body_name"]⟩⟩ (by decide)
     ("body_name") (by decide)⟩
